import Mathlib

/-! Event handlers of the window manager (`event.c`).

A shallow embedding of the event handlers of `event.c`.  Every handler is a
function from the process state, the event record and the replies of the
collaborators it consults to an `Outcome`: the returned status, the state
afterwards and the ordered list of calls it made to its collaborators.
-/

namespace Awesome

/-! ## Protocol constants -/

def XCB_KEY_PRESS : Nat := 2
def XCB_KEY_RELEASE : Nat := 3
def XCB_BUTTON_PRESS : Nat := 4
def XCB_BUTTON_RELEASE : Nat := 5

def XCB_BUTTON_MASK_ANY : Nat := 32768

def XCB_CONFIG_WINDOW_X : Nat := 1
def XCB_CONFIG_WINDOW_Y : Nat := 2
def XCB_CONFIG_WINDOW_WIDTH : Nat := 4
def XCB_CONFIG_WINDOW_HEIGHT : Nat := 8
def XCB_CONFIG_WINDOW_BORDER_WIDTH : Nat := 16
def XCB_CONFIG_WINDOW_SIBLING : Nat := 32
def XCB_CONFIG_WINDOW_STACK_MODE : Nat := 64

def XCB_NOTIFY_DETAIL_ANCESTOR : Nat := 0
def XCB_NOTIFY_DETAIL_VIRTUAL : Nat := 1
def XCB_NOTIFY_DETAIL_INFERIOR : Nat := 2
def XCB_NOTIFY_DETAIL_NONLINEAR : Nat := 3
def XCB_NOTIFY_DETAIL_NONLINEAR_VIRTUAL : Nat := 4
def XCB_NOTIFY_DETAIL_POINTER : Nat := 5
def XCB_NOTIFY_DETAIL_POINTER_ROOT : Nat := 6
def XCB_NOTIFY_DETAIL_NONE : Nat := 7

def XCB_WM_STATE_WITHDRAWN : Nat := 0
def XCB_WM_STATE_NORMAL : Nat := 1
def XCB_WM_STATE_ICONIC : Nat := 3

def XCB_RANDR_ROTATION_ROTATE_0 : Nat := 1
def XCB_RANDR_ROTATION_ROTATE_90 : Nat := 2
def XCB_RANDR_ROTATION_ROTATE_180 : Nat := 4
def XCB_RANDR_ROTATION_ROTATE_270 : Nat := 8

/-! ## Data model -/

/-- The rectangle type `area_t`; its fields are at least as wide as the event
fields assigned to them, so the assignments of the handlers do not truncate. -/
structure area_t where
  x : Int
  y : Int
  width : Nat
  height : Nat
deriving DecidableEq

/-- A button binding; `ref` is the identity of the script-level object that
carries the binding's handlers. -/
structure button_t where
  ref : Nat
  button : Nat
  modifiers : Nat
deriving DecidableEq

/-- A key binding; `ref` is the identity of the script-level object. -/
structure keyb_t where
  ref : Nat
  keycode : Nat
  keysym : Nat
  modifiers : Nat
deriving DecidableEq

/-- The part common to the root window and to clients. -/
structure window_t where
  window : Nat
  buttons : List button_t
  keys : List keyb_t
deriving DecidableEq

/-- A managed client. -/
structure client_t extends window_t where
  geometry : area_t
  border_width : Nat
  minimized : Bool
deriving DecidableEq

/-- A record of the embedded-window collection `_G_embedded`. -/
structure xembed_window_t where
  window : Nat
  info : Nat
deriving DecidableEq

/-- A value of the script engine. -/
inductive LuaValue where
  | nil
  | boolean (b : Bool)
  | number (n : Int)
  | string (s : String)
  | function (f : Nat)
  | window (w : window_t)
  | button (b : button_t)
  | key (k : keyb_t)
  | pointer_state (x y : Int) (mask : Nat)
deriving DecidableEq

/-- Reply of the window-attributes round trip (the field the handlers read). -/
structure xcb_get_window_attributes_reply_t where
  override_redirect : Bool
deriving DecidableEq

/-- Reply of the geometry round trip. -/
structure xcb_get_geometry_reply_t where
  x : Int
  y : Int
  width : Nat
  height : Nat
  border_width : Nat
deriving DecidableEq

/-- The process-wide state the handlers read and write. -/
structure State where
  root : window_t
  clients : List client_t
  embedded : List xembed_window_t
  mousegrabber : Option Nat
  keygrabber : Option Nat
  focus : Option Nat
  stack : List LuaValue
deriving DecidableEq

/-- A call made by a handler to one of its collaborators. -/
inductive Action where
  | get_window_attributes (w : Nat)
  | get_geometry (w : Nat)
  | get_state (w : Nat)
  | map_window (w : Nat)
  | xembed_window_activate (w : Nat)
  | client_manage (w : Nat) (geom : xcb_get_geometry_reply_t) (startup : Bool)
  | client_unmanage (w : Nat)
  | set_minimized (w : Nat) (b : Bool)
  | stack_window_raise (w : Nat)
  | set_border_width (w : Nat) (bw : Nat)
  | window_set_geometry (w : Nat) (g : area_t)
  | xwindow_configure (w : Nat) (g : area_t) (bw : Nat)
  | xcb_configure_window (w : Nat) (mask : Nat) (vals : List Nat)
  | pcall (f : LuaValue) (args : List LuaValue)
  | warn
  | mousegrabber_stop
  | keygrabber_stop
  | emit_signal (obj : LuaValue) (name : String) (args : List LuaValue)
  | window_focus_update (w : Nat)
  | window_unfocus_update (w : Nat)
  | awesome_restart
  | randr_set_screen_size (root : Nat) (width height mm_width mm_height : Nat)
  | sn_process_event (w : Nat) (type : Nat)
  | xembed_process_client_message (w : Nat)
  | systray_process_client_message (w : Nat)
  | ewmh_process_client_message (w : Nat) (type : Nat)
deriving DecidableEq

/-- What a handler returns: status, state afterwards, calls in order. -/
structure Outcome where
  ret : Int
  state : State
  trace : List Action
deriving DecidableEq

/-! ## The script-engine stack (top of the stack is the head of the list) -/

def lua_push (s : State) (v : LuaValue) : State :=
  { s with stack := v :: s.stack }

def luaA_object_push (s : State) (v : LuaValue) : State :=
  lua_push s v

def lua_pop (s : State) (n : Nat) : State :=
  { s with stack := s.stack.drop n }

/-- The value at the negative index `-k` (`k ≥ 1`); an index below the bottom of
the stack reads as `nil`. -/
def lua_index (s : State) (k : Nat) : LuaValue :=
  s.stack.getD (k - 1) LuaValue.nil

def lua_pushvalue (s : State) (k : Nat) : State :=
  lua_push s (lua_index s k)

def lua_isboolean : LuaValue → Bool
  | LuaValue.boolean _ => true
  | _ => false

def lua_toboolean : LuaValue → Bool
  | LuaValue.nil => false
  | LuaValue.boolean b => b
  | _ => true

/-! ## Lookup tables -/

/-- Modelled from the spec: `client_getbywin`, the client table lookup by
window identifier (section 4.2, "Client by table lookup"). -/
def client_getbywin (s : State) (w : Nat) : Option client_t :=
  s.clients.find? (fun c => c.window == w)

/-- Modelled from the spec: `ewindow_getbywin`, the lookup behind the window
resolver for everything that is not the root (section 4.2). -/
def ewindow_getbywin (s : State) (w : Nat) : Option window_t :=
  (client_getbywin s w).map (fun c => c.towindow_t)

def window_getbywin (s : State) (window : Nat) : Option window_t :=
  if s.root.window = window then some s.root
  else ewindow_getbywin s window

/-- Modelled from the spec: `xembed_getbywin`, membership lookup in the
embedded-window set keyed by window identifier (section 4.6). -/
def xembed_getbywin (l : List xembed_window_t) (w : Nat) : Option xembed_window_t :=
  l.find? (fun em => em.window == w)

/-- Write `f c` over the first client of the table whose window is `w`: the
effect of a write through the pointer that `client_getbywin` returned. -/
def client_update (f : client_t → client_t) (w : Nat) : List client_t → List client_t
  | [] => []
  | c :: rest => if c.window = w then f c :: rest else c :: client_update f w rest

/-! ## Configure request -/

structure xcb_configure_request_event_t where
  response_type : Nat
  stack_mode : Nat
  parent : Nat
  window : Nat
  sibling : Nat
  x : Int
  y : Int
  width : Nat
  height : Nat
  border_width : Nat
  value_mask : Nat
deriving DecidableEq

/-- Modelled from the spec: `ewindow_set_border_width`, "apply border-width
change first if requested" (section 4.3): the client's border width becomes
the requested one. -/
def ewindow_set_border_width (s : State) (w : Nat) (bw : Nat) : State :=
  { s with clients := client_update (fun c => { c with border_width := bw }) w s.clients }

/-- The masked overlay computed by `event_handle_configurerequest` for a
managed client. -/
def configurerequest_geometry (c : client_t) (ev : xcb_configure_request_event_t) : area_t :=
  let geometry := c.geometry
  let geometry := if ev.value_mask &&& XCB_CONFIG_WINDOW_X ≠ 0
    then { geometry with x := ev.x } else geometry
  let geometry := if ev.value_mask &&& XCB_CONFIG_WINDOW_Y ≠ 0
    then { geometry with y := ev.y } else geometry
  let geometry := if ev.value_mask &&& XCB_CONFIG_WINDOW_WIDTH ≠ 0
    then { geometry with width := ev.width } else geometry
  let geometry := if ev.value_mask &&& XCB_CONFIG_WINDOW_HEIGHT ≠ 0
    then { geometry with height := ev.height } else geometry
  geometry

/-- Conversion of an event field to the `uint32_t` of the value array. -/
def to_uint32 (v : Int) : Nat :=
  (v % 4294967296).toNat

/-- Append `v` to the value list when `bit` is present in the request mask,
as each of the seven blocks of the passthrough does. -/
def config_win_step (value_mask bit : Nat) (v : Int) (acc : Nat × List Nat) : Nat × List Nat :=
  if value_mask &&& bit ≠ 0 then (acc.1 ||| bit, acc.2 ++ [to_uint32 v]) else acc

def event_handle_configurerequest_configure_window
    (ev : xcb_configure_request_event_t) : Action :=
  let acc : Nat × List Nat := (0, [])
  let acc := config_win_step ev.value_mask XCB_CONFIG_WINDOW_X ev.x acc
  let acc := config_win_step ev.value_mask XCB_CONFIG_WINDOW_Y ev.y acc
  let acc := config_win_step ev.value_mask XCB_CONFIG_WINDOW_WIDTH ev.width acc
  let acc := config_win_step ev.value_mask XCB_CONFIG_WINDOW_HEIGHT ev.height acc
  let acc := config_win_step ev.value_mask XCB_CONFIG_WINDOW_BORDER_WIDTH ev.border_width acc
  let acc := config_win_step ev.value_mask XCB_CONFIG_WINDOW_SIBLING ev.sibling acc
  let acc := config_win_step ev.value_mask XCB_CONFIG_WINDOW_STACK_MODE ev.stack_mode acc
  Action.xcb_configure_window ev.window acc.1 acc.2

/-- The handler of configure requests.  `policy` is `window_set_geometry`, the
policy layer: given the client and the merged geometry it answers whether it
handled the change and which geometry the client has afterwards. -/
def event_handle_configurerequest (policy : client_t → area_t → Bool × area_t)
    (s : State) (ev : xcb_configure_request_event_t) : Outcome :=
  match client_getbywin s ev.window with
  | some c =>
    let geometry := configurerequest_geometry c ev
    let s := luaA_object_push s (LuaValue.window c.towindow_t)
    let border := ev.value_mask &&& XCB_CONFIG_WINDOW_BORDER_WIDTH ≠ 0
    let s := if border then ewindow_set_border_width s c.window ev.border_width else s
    let c := if border then { c with border_width := ev.border_width } else c
    let t1 := if border then [Action.set_border_width c.window ev.border_width] else []
    let r := policy c geometry
    let s := { s with clients := client_update (fun d => { d with geometry := r.2 }) c.window s.clients }
    let t2 := [Action.window_set_geometry c.window geometry]
    let t3 := if !r.1 then [Action.xwindow_configure c.window geometry c.border_width] else []
    let s := lua_pop s 1
    { ret := 0, state := s, trace := t1 ++ t2 ++ t3 }
  | none =>
    { ret := 0, state := s, trace := [event_handle_configurerequest_configure_window ev] }

/-! ## Binding dispatch -/

structure xcb_button_press_event_t where
  response_type : Nat
  detail : Nat
  event : Nat
  root_x : Int
  root_y : Int
  state : Nat
deriving DecidableEq

structure xcb_key_press_event_t where
  response_type : Nat
  detail : Nat
  event : Nat
  state : Nat
deriving DecidableEq

def event_key_match (ev : xcb_key_press_event_t) (k : keyb_t) (keysym : Nat) : Bool :=
  ((k.keycode != 0 && ev.detail == k.keycode)
    || (k.keysym != 0 && keysym == k.keysym))
  && (k.modifiers == XCB_BUTTON_MASK_ANY || k.modifiers == ev.state)

def event_button_match (ev : xcb_button_press_event_t) (b : button_t) : Bool :=
  (b.button == 0 || ev.detail == b.button)
  && (b.modifiers == XCB_BUTTON_MASK_ANY || b.modifiers == ev.state)

/-- Modelled from the spec: `luaA_object_emit_signal`, the object-signal-emission
call of the collaborator interface (sections 1 and 6): the signal `name` is
emitted on the object at index `-oud` with the `nargs` values on top of the
stack as arguments, and the emission consumes those arguments. -/
def luaA_object_emit_signal (s : State) (oud : Nat) (name : String) (nargs : Nat) :
    State × Action :=
  (lua_pop s nargs,
   Action.emit_signal (lua_index s oud) name (s.stack.take nargs).reverse)

/-- The loop `for(int i = 0; i < nargs; i++) lua_pushvalue(L, -k)`. -/
def lua_pushvalue_times (k : Nat) : Nat → State → State
  | 0, s => s
  | n + 1, s => lua_pushvalue_times k n (lua_pushvalue s k)

/-- First loop of `DO_EVENT_HOOK_CALLBACK`: push every matching item and count
them in `item_matching`. -/
def event_hook_scan {α : Type} (m : α → Bool) (wrap : α → LuaValue) :
    List α → State × Nat → State × Nat
  | [], acc => acc
  | item :: rest, (s, item_matching) =>
    if m item then
      event_hook_scan m wrap rest (luaA_object_push s (wrap item), item_matching + 1)
    else
      event_hook_scan m wrap rest (s, item_matching)

/-- The body of one `case` of the `switch`: copy the `nargs` arguments that lie
below the matching items and emit the signal `name` on the object at index
`-nargs - 1`. -/
def event_hook_emit_case (name : String) (nargs item_matching : Nat)
    (acc : State × List Action) : State × List Action :=
  let s := lua_pushvalue_times (nargs + item_matching) nargs acc.1
  let r := luaA_object_emit_signal s (nargs + 1) name nargs
  (r.1, acc.2 ++ [r.2])

/-- One iteration of the second loop: the `switch` on the response type, then
`lua_pop(L, 1)`. -/
def event_hook_emit_step (press release response_type nargs item_matching : Nat)
    (acc : State × List Action) : State × List Action :=
  let acc :=
    if response_type = press then event_hook_emit_case "press" nargs item_matching acc
    else if response_type = release then event_hook_emit_case "release" nargs item_matching acc
    else acc
  (lua_pop acc.1 1, acc.2)

/-- Second loop of `DO_EVENT_HOOK_CALLBACK`:
`for(; item_matching > 0; item_matching--)`. -/
def event_hook_emit (press release response_type nargs : Nat) :
    Nat → State × List Action → State × List Action
  | 0, acc => acc
  | n + 1, acc =>
    event_hook_emit press release response_type nargs n
      (event_hook_emit_step press release response_type nargs (n + 1) acc)

/-- The body generated by `DO_EVENT_HOOK_CALLBACK`. -/
def event_hook_callback {α : Type} (m : α → Bool) (wrap : α → LuaValue)
    (press release response_type : Nat) (arr : List α) (nargs : Nat) (s : State) :
    State × List Action :=
  let r := event_hook_scan m wrap arr (s, 0)
  let r := event_hook_emit press release response_type nargs r.2 (r.1, [])
  (lua_pop r.1 nargs, r.2)

def event_button_callback (ev : xcb_button_press_event_t) (arr : List button_t)
    (nargs : Nat) (s : State) : State × List Action :=
  event_hook_callback (event_button_match ev) LuaValue.button
    XCB_BUTTON_PRESS XCB_BUTTON_RELEASE ev.response_type arr nargs s

def event_key_callback (ev : xcb_key_press_event_t) (arr : List keyb_t)
    (nargs : Nat) (keysym : Nat) (s : State) : State × List Action :=
  event_hook_callback (fun k => event_key_match ev k keysym) LuaValue.key
    XCB_KEY_PRESS XCB_KEY_RELEASE ev.response_type arr nargs s

/-! ## Grabs -/

/-- Modelled from the spec: `luaA_mousegrabber_stop`, the routine that
terminates the pointer grab (section 4.4): the grab owner is cleared. -/
def luaA_mousegrabber_stop (s : State) : State :=
  { s with mousegrabber := none }

/-- Modelled from the spec: `luaA_keygrabber_stop`, the routine that terminates
the key grab (section 4.4): the grab owner is cleared. -/
def luaA_keygrabber_stop (s : State) : State :=
  { s with keygrabber := none }

/-- The protected call `lua_pcall(L, nargs, 1, 0)`: the function and its
arguments leave the stack and the result, or the error value, is pushed.
`call` is the script function being run. -/
def lua_pcall (call : LuaValue → List LuaValue → Except LuaValue LuaValue)
    (s : State) (nargs : Nat) : State × Bool × Action :=
  let args := (s.stack.take nargs).reverse
  let f := lua_index s (nargs + 1)
  let s := lua_pop s (nargs + 1)
  match call f args with
  | Except.error e => (lua_push s e, true, Action.pcall f args)
  | Except.ok v => (lua_push s v, false, Action.pcall f args)

/-- The result is the pair of the state with the calls made, and whether the
event was handled. -/
def event_handle_mousegrabber (call : LuaValue → List LuaValue → Except LuaValue LuaValue)
    (s : State) (x y : Int) (mask : Nat) : State × List Action × Bool :=
  match s.mousegrabber with
  | some g =>
    let s := luaA_object_push s (LuaValue.function g)
    -- mousegrabber_handleevent pushes the pointer description
    let s := lua_push s (LuaValue.pointer_state x y mask)
    let r := lua_pcall call s 1
    let s := r.1
    let (s, t) :=
      if r.2.1 then
        (luaA_mousegrabber_stop s, [r.2.2, Action.warn, Action.mousegrabber_stop])
      else if !lua_isboolean (lua_index s 1) || !lua_toboolean (lua_index s 1) then
        (luaA_mousegrabber_stop s, [r.2.2, Action.mousegrabber_stop])
      else (s, [r.2.2])
    let s := lua_pop s 1
    (s, t, true)
  | none => (s, [], false)

/-- The `uint16_t` mask argument `1 << (ev->detail - 1 + 8)` of the button
handler: the low 16 bits of the shifted `int`.  For a detail of 25 or more the
shift count reaches 32, which C leaves undefined; the count is then taken
modulo 32, as the shift instruction of the usual targets does. -/
def button_grab_mask (detail : Nat) : Nat :=
  2 ^ ((detail + 7) % 32) % 65536

def event_handle_button (call : LuaValue → List LuaValue → Except LuaValue LuaValue)
    (s : State) (ev : xcb_button_press_event_t) : Outcome :=
  let r := event_handle_mousegrabber call s ev.root_x ev.root_y (button_grab_mask ev.detail)
  if r.2.2 then { ret := 0, state := r.1, trace := r.2.1 }
  else
    match window_getbywin s ev.event with
    | some window =>
      let s := luaA_object_push s (LuaValue.window window)
      let r := event_button_callback ev window.buttons 1 s
      { ret := 0, state := r.1, trace := r.2 }
    | none => { ret := 0, state := s, trace := [] }

/-- The handler of key presses and releases.  `handlekpress` is
`keygrabber_handlekpress`: when it accepts the event it pushes the three
arguments of the grab callback.  `keyresolv_get_keysym` is the key-symbol
resolution table. -/
def event_handle_key (call : LuaValue → List LuaValue → Except LuaValue LuaValue)
    (handlekpress : xcb_key_press_event_t → Option (LuaValue × LuaValue × LuaValue))
    (keyresolv_get_keysym : Nat → Nat → Nat)
    (s : State) (ev : xcb_key_press_event_t) : Outcome :=
  match s.keygrabber with
  | some g =>
    let s := luaA_object_push s (LuaValue.function g)
    let (s, t) :=
      match handlekpress ev with
      | some (a, b, c) =>
        let s := lua_push (lua_push (lua_push s a) b) c
        let r := lua_pcall call s 3
        let s := r.1
        if r.2.1 then
          (luaA_keygrabber_stop s, [r.2.2, Action.warn, Action.keygrabber_stop])
        else if !lua_isboolean (lua_index s 1) || !lua_toboolean (lua_index s 1) then
          (luaA_keygrabber_stop s, [r.2.2, Action.keygrabber_stop])
        else (s, [r.2.2])
      | none => (s, [])
    let s := lua_pop s 1
    { ret := 0, state := s, trace := t }
  | none =>
    let keysym := keyresolv_get_keysym ev.detail 0
    match window_getbywin s ev.event with
    | some window =>
      let s := luaA_object_push s (LuaValue.window window)
      let r := event_key_callback ev window.keys 1 keysym s
      { ret := 0, state := r.1, trace := r.2 }
    | none => { ret := 0, state := s, trace := [] }

/-! ## Focus -/

structure xcb_focus_in_event_t where
  response_type : Nat
  detail : Nat
  event : Nat
  mode : Nat
deriving DecidableEq

/-- Modelled from the spec: `window_focus_update`, "mark the resolved window as
focused" (section 4.5). -/
def window_focus_update (s : State) (window : window_t) : State :=
  { s with focus := some window.window }

/-- Modelled from the spec: `window_unfocus_update`, "mark it as unfocused"
(section 4.5): the focus reference is dropped when it designates the window. -/
def window_unfocus_update (s : State) (window : window_t) : State :=
  { s with focus := if s.focus = some window.window then none else s.focus }

def event_handle_focusin (s : State) (ev : xcb_focus_in_event_t) : Outcome :=
  if ev.detail = XCB_NOTIFY_DETAIL_ANCESTOR ∨ ev.detail = XCB_NOTIFY_DETAIL_INFERIOR
      ∨ ev.detail = XCB_NOTIFY_DETAIL_NONLINEAR_VIRTUAL
      ∨ ev.detail = XCB_NOTIFY_DETAIL_NONLINEAR then
    match window_getbywin s ev.event with
    | some window =>
      { ret := 0, state := window_focus_update s window,
        trace := [Action.window_focus_update window.window] }
    | none => { ret := 0, state := s, trace := [] }
  else { ret := 0, state := s, trace := [] }

def event_handle_focusout (s : State) (ev : xcb_focus_in_event_t) : Outcome :=
  if ev.detail = XCB_NOTIFY_DETAIL_ANCESTOR ∨ ev.detail = XCB_NOTIFY_DETAIL_INFERIOR
      ∨ ev.detail = XCB_NOTIFY_DETAIL_NONLINEAR_VIRTUAL
      ∨ ev.detail = XCB_NOTIFY_DETAIL_NONLINEAR then
    match window_getbywin s ev.event with
    | some window =>
      { ret := 0, state := window_unfocus_update s window,
        trace := [Action.window_unfocus_update window.window] }
    | none => { ret := 0, state := s, trace := [] }
  else { ret := 0, state := s, trace := [] }

/-! ## Client lifecycle -/

structure xcb_map_request_event_t where
  response_type : Nat
  parent : Nat
  window : Nat
deriving DecidableEq

structure xcb_unmap_notify_event_t where
  response_type : Nat
  event : Nat
  window : Nat
  from_configure : Nat
deriving DecidableEq

structure xcb_destroy_notify_event_t where
  response_type : Nat
  event : Nat
  window : Nat
deriving DecidableEq

/-- Modelled from the spec: `client_manage`, "transition Unmanaged →
Managed(Mapped) and register the entity" (section 4.3), the new client having
"geometry equal to the queried geometry" (section 8). -/
def client_manage (s : State) (w : Nat) (wgeom : xcb_get_geometry_reply_t) : State :=
  { s with clients := s.clients ++
      [{ window := w, buttons := [], keys := [],
         geometry := { x := wgeom.x, y := wgeom.y, width := wgeom.width, height := wgeom.height },
         border_width := wgeom.border_width, minimized := false }] }

/-- Remove from the table the client the pointer designates: the first one
whose window is `w`. -/
def client_array_remove (w : Nat) : List client_t → List client_t
  | [] => []
  | c :: rest => if c.window = w then rest else c :: client_array_remove w rest

/-- Modelled from the spec: `client_unmanage`, the transition to Destroyed
(section 4.3): the client leaves the client table. -/
def client_unmanage (s : State) (c : client_t) : State :=
  { s with clients := client_array_remove c.window s.clients }

/-- Modelled from the spec: `ewindow_set_minimized`, which writes the client's
minimized flag (section 4.3, "clear its minimized flag"). -/
def ewindow_set_minimized (s : State) (w : Nat) (b : Bool) : State :=
  { s with clients := client_update (fun c => { c with minimized := b }) w s.clients }

/-- The macro `XCB_EVENT_SENT`: the top bit of the response type. -/
def XCB_EVENT_SENT (response_type : Nat) : Bool :=
  response_type &&& 128 != 0

/-- The loop `foreach(em, _G_embedded) if(em->window == w) { remove; break; }`
of the unmap and destroy handlers. -/
def embedded_remove (w : Nat) : List xembed_window_t → List xembed_window_t
  | [] => []
  | em :: rest => if em.window = w then rest else em :: embedded_remove w rest

/-- The handler of map requests.  `wa_r` and `geom_r` are what the server
answers to the attributes and geometry round trips (`none`: no reply);
`ewindow_isvisible` tells whether a client is eligible to be visible. -/
def event_handle_maprequest (wa_r : Option xcb_get_window_attributes_reply_t)
    (geom_r : Option xcb_get_geometry_reply_t) (ewindow_isvisible : client_t → Bool)
    (s : State) (ev : xcb_map_request_event_t) : Outcome :=
  match wa_r with
  | none => { ret := -1, state := s, trace := [Action.get_window_attributes ev.window] }
  | some wa =>
    if wa.override_redirect then
      { ret := 0, state := s, trace := [Action.get_window_attributes ev.window] }
    else if (xembed_getbywin s.embedded ev.window).isSome then
      { ret := 0, state := s,
        trace := [Action.get_window_attributes ev.window, Action.map_window ev.window,
                  Action.xembed_window_activate ev.window] }
    else
      match client_getbywin s ev.window with
      | some c =>
        if ewindow_isvisible c then
          let s := luaA_object_push s (LuaValue.window c.towindow_t)
          let s := ewindow_set_minimized s c.window false
          let s := lua_pop s 1
          { ret := 0, state := s,
            trace := [Action.get_window_attributes ev.window,
                      Action.set_minimized c.window false,
                      Action.stack_window_raise c.window] }
        else
          { ret := 0, state := s, trace := [Action.get_window_attributes ev.window] }
      | none =>
        match geom_r with
        | none =>
          { ret := -1, state := s,
            trace := [Action.get_window_attributes ev.window, Action.get_geometry ev.window] }
        | some geom =>
          { ret := 0, state := client_manage s ev.window geom,
            trace := [Action.get_window_attributes ev.window, Action.get_geometry ev.window,
                      Action.client_manage ev.window geom false] }

/-- The handler of unmap notifications.  `wm_state` is the window state the
state query answers with. -/
def event_handle_unmapnotify (wm_state : Nat) (s : State)
    (ev : xcb_unmap_notify_event_t) : Outcome :=
  match client_getbywin s ev.window with
  | some c =>
    if ev.event = s.root.window ∧ XCB_EVENT_SENT ev.response_type = true then
      if wm_state = XCB_WM_STATE_NORMAL then
        { ret := 0, state := client_unmanage s c,
          trace := [Action.get_state c.window, Action.client_unmanage c.window] }
      else { ret := 0, state := s, trace := [Action.get_state c.window] }
    else { ret := 0, state := s, trace := [] }
  | none =>
    { ret := 0, state := { s with embedded := embedded_remove ev.window s.embedded },
      trace := [] }

def event_handle_destroynotify (s : State) (ev : xcb_destroy_notify_event_t) : Outcome :=
  match client_getbywin s ev.window with
  | some c =>
    { ret := 0, state := client_unmanage s c, trace := [Action.client_unmanage c.window] }
  | none =>
    { ret := 0, state := { s with embedded := embedded_remove ev.window s.embedded },
      trace := [] }

structure xcb_reparent_notify_event_t where
  response_type : Nat
  event : Nat
  window : Nat
  parent : Nat
deriving DecidableEq

def event_handle_reparentnotify (s : State) (ev : xcb_reparent_notify_event_t) : Outcome :=
  match client_getbywin s ev.window with
  | some c =>
    { ret := 0, state := client_unmanage s c, trace := [Action.client_unmanage c.window] }
  | none => { ret := 0, state := s, trace := [] }

/-! ## Geometry monitor -/

/-- The fields of a screen of the connection setup that the handlers read. -/
structure xcb_screen_t where
  root : Nat
  width_in_pixels : Nat
  height_in_pixels : Nat
deriving DecidableEq

structure xcb_configure_notify_event_t where
  response_type : Nat
  event : Nat
  window : Nat
  x : Int
  y : Int
  width : Nat
  height : Nat
  border_width : Nat
deriving DecidableEq

/-- The loop over the screen numbers of `event_handle_configurenotify`;
`screens` lists, by screen number, what `xutil_screen_get` answers (`none`:
`NULL`).  `awesome_restart` is recorded as a call that comes back, which is
what it does when the re-exec fails. -/
def configurenotify_loop (ev : xcb_configure_notify_event_t) :
    List (Option xcb_screen_t) → List Action
  | [] => []
  | none :: rest => configurenotify_loop ev rest
  | some screen :: rest =>
    if ev.window = screen.root
        ∧ (ev.width ≠ screen.width_in_pixels ∨ ev.height ≠ screen.height_in_pixels) then
      Action.awesome_restart :: configurenotify_loop ev rest
    else configurenotify_loop ev rest

def event_handle_configurenotify (screens : List (Option xcb_screen_t)) (s : State)
    (ev : xcb_configure_notify_event_t) : Outcome :=
  { ret := 0, state := s, trace := configurenotify_loop ev screens }

structure xcb_randr_screen_change_notify_event_t where
  response_type : Nat
  rotation : Nat
  root : Nat
  request_window : Nat
  width : Nat
  height : Nat
  mwidth : Nat
  mheight : Nat
deriving DecidableEq

def event_handle_randr_screen_change_notify (s : State)
    (ev : xcb_randr_screen_change_notify_event_t) : Outcome :=
  let t :=
    if ev.rotation &&& (XCB_RANDR_ROTATION_ROTATE_90 ||| XCB_RANDR_ROTATION_ROTATE_270) ≠ 0 then
      [Action.randr_set_screen_size ev.root ev.height ev.width ev.mheight ev.mwidth]
    else
      [Action.randr_set_screen_size ev.root ev.width ev.height ev.mwidth ev.mheight]
  { ret := 0, state := s, trace := t ++ [Action.awesome_restart] }

/-! ## Client messages -/

/-- The three protocol atoms the client-message handler compares the message
type with; their values are interned at startup. -/
structure atoms_t where
  WM_CHANGE_STATE : Nat
  _XEMBED : Nat
  _NET_SYSTEM_TRAY_OPCODE : Nat
deriving DecidableEq

/-- A client message; `data32` holds the 32-bit words of the data union. -/
structure xcb_client_message_event_t where
  response_type : Nat
  format : Nat
  window : Nat
  type : Nat
  data32 : List Nat
deriving DecidableEq

/-- The handler of client messages.  `sn_consumes` is what
`sn_xcb_display_process_event` answers; `xembed_ret`, `systray_ret` and
`ewmh_ret` are the statuses the three protocol handlers return. -/
def event_handle_clientmessage (atoms : atoms_t) (sn_consumes : Bool)
    (xembed_ret systray_ret ewmh_ret : Int) (s : State)
    (ev : xcb_client_message_event_t) : Outcome :=
  if sn_consumes then
    { ret := 0, state := s, trace := [Action.sn_process_event ev.window ev.type] }
  else if ev.type = atoms.WM_CHANGE_STATE then
    match client_getbywin s ev.window with
    | some c =>
      if ev.format = 32 ∧ ev.data32.getD 0 0 = XCB_WM_STATE_ICONIC then
        let s := luaA_object_push s (LuaValue.window c.towindow_t)
        let s := ewindow_set_minimized s c.window true
        let s := lua_pop s 1
        { ret := ewmh_ret, state := s,
          trace := [Action.sn_process_event ev.window ev.type,
                    Action.set_minimized c.window true,
                    Action.ewmh_process_client_message ev.window ev.type] }
      else
        { ret := ewmh_ret, state := s,
          trace := [Action.sn_process_event ev.window ev.type,
                    Action.ewmh_process_client_message ev.window ev.type] }
    | none =>
      { ret := ewmh_ret, state := s,
        trace := [Action.sn_process_event ev.window ev.type,
                  Action.ewmh_process_client_message ev.window ev.type] }
  else if ev.type = atoms._XEMBED then
    { ret := xembed_ret, state := s,
      trace := [Action.sn_process_event ev.window ev.type,
                Action.xembed_process_client_message ev.window] }
  else if ev.type = atoms._NET_SYSTEM_TRAY_OPCODE then
    { ret := systray_ret, state := s,
      trace := [Action.sn_process_event ev.window ev.type,
                Action.systray_process_client_message ev.window] }
  else
    { ret := ewmh_ret, state := s,
      trace := [Action.sn_process_event ev.window ev.type,
                Action.ewmh_process_client_message ev.window ev.type] }

/-! ## Reading a trace -/

/-- The geometry a call hands to the policy layer or to the low-level
configuration, when the call is one of those two. -/
def Action.geometry_arg : Action → Option area_t
  | Action.window_set_geometry _ g => some g
  | Action.xwindow_configure _ g _ => some g
  | _ => none

def Action.is_client_manage : Action → Bool
  | Action.client_manage _ _ _ => true
  | _ => false

/-- Object and name of a signal emission. -/
def Action.emission : Action → Option (LuaValue × String)
  | Action.emit_signal obj name _ => some (obj, name)
  | _ => none

/-- The signal emissions of a trace, in the order they were made. -/
def signal_emissions (t : List Action) : List (LuaValue × String) :=
  t.filterMap Action.emission

/-- Calls that map, activate, minimize or raise a window. -/
def Action.is_window_action : Action → Bool
  | Action.map_window _ => true
  | Action.xembed_window_activate _ => true
  | Action.set_minimized _ _ => true
  | Action.stack_window_raise _ => true
  | _ => false

/-! ## Sample data -/

def sample_root : window_t := { window := 1, buttons := [], keys := [] }

def sample_b1 : button_t := { ref := 1, button := 1, modifiers := 0 }

def sample_b2 : button_t := { ref := 2, button := 0, modifiers := XCB_BUTTON_MASK_ANY }

def sample_b3 : button_t := { ref := 3, button := 3, modifiers := 0 }

def sample_k1 : keyb_t := { ref := 4, keycode := 38, keysym := 0, modifiers := 64 }

def sample_k2 : keyb_t := { ref := 5, keycode := 0, keysym := 97, modifiers := XCB_BUTTON_MASK_ANY }

def sample_client : client_t :=
  { window := 256, buttons := [sample_b1, sample_b3, sample_b2], keys := [sample_k1, sample_k2],
    geometry := { x := 10, y := 10, width := 800, height := 600 },
    border_width := 1, minimized := false }

def sample_state : State :=
  { root := sample_root, clients := [sample_client], embedded := [],
    mousegrabber := none, keygrabber := none, focus := none, stack := [] }

def sample_empty : State :=
  { root := sample_root, clients := [], embedded := [],
    mousegrabber := none, keygrabber := none, focus := none, stack := [] }

def sample_geom : xcb_get_geometry_reply_t :=
  { x := 0, y := 0, width := 800, height := 600, border_width := 0 }

/-! ## Outcome of the grab branches -/

/-- What the pointer-grab branch does, as a function of the callback's result. -/
def mousegrabber_result (r : Except LuaValue LuaValue) (f : LuaValue) (args : List LuaValue)
    (s : State) : State × List Action × Bool :=
  match r with
  | Except.error _ =>
    (luaA_mousegrabber_stop s, [Action.pcall f args, Action.warn, Action.mousegrabber_stop], true)
  | Except.ok v =>
    if v = LuaValue.boolean true then (s, [Action.pcall f args], true)
    else (luaA_mousegrabber_stop s, [Action.pcall f args, Action.mousegrabber_stop], true)

/-- What the key-grab branch does once the callback ran, as a function of the
callback's result. -/
def keygrabber_result (r : Except LuaValue LuaValue) (f : LuaValue) (args : List LuaValue)
    (s : State) : Outcome :=
  match r with
  | Except.error _ =>
    { ret := 0, state := luaA_keygrabber_stop s,
      trace := [Action.pcall f args, Action.warn, Action.keygrabber_stop] }
  | Except.ok v =>
    if v = LuaValue.boolean true then { ret := 0, state := s, trace := [Action.pcall f args] }
    else { ret := 0, state := luaA_keygrabber_stop s,
           trace := [Action.pcall f args, Action.keygrabber_stop] }

/-- The calls of `t` are `n` signal emissions and nothing else, each named
`name` and each made on one of the objects `objs`. -/
def emissions_are (t : List Action) (n : Nat) (name : String) (objs : List LuaValue) : Prop :=
  t.length = n ∧ (signal_emissions t).length = n
    ∧ ∀ e ∈ signal_emissions t, e.2 = name ∧ e.1 ∈ objs

instance (t : List Action) (n : Nat) (name : String) (objs : List LuaValue) :
    Decidable (emissions_are t n name objs) := by
  unfold emissions_are
  exact inferInstance

/-- A client holding the two button bindings of the ordering scenario, both
matching a press of button 1 without modifiers. -/
def sample_two : State :=
  { sample_empty with
    clients := [{ window := 256, buttons := [sample_b1, sample_b2], keys := [sample_k1, sample_k2],
                  geometry := { x := 0, y := 0, width := 1, height := 1 },
                  border_width := 0, minimized := false }] }

/-! ## More sample data -/

/-- A state with both grab owners set and a client holding bindings. -/
def sample_grabbed : State :=
  { sample_state with mousegrabber := some 7, keygrabber := some 8 }

/-- A state with three embedded windows next to one client. -/
def sample_embedded : State :=
  { sample_state with
    embedded := [{ window := 5, info := 0 }, { window := 7, info := 1 },
                 { window := 9, info := 2 }] }

/-- Three distinct atom values for the examples. -/
def sample_atoms : atoms_t :=
  { WM_CHANGE_STATE := 300, _XEMBED := 301, _NET_SYSTEM_TRAY_OPCODE := 302 }

/-- A policy layer that applies the merged geometry as it is. -/
def policy_apply : client_t → area_t → Bool × area_t :=
  fun _ g => (true, g)

/-- The seven optional fields of a configure request, each with the number of
its mask bit, in the order the passthrough tests them. -/
def config_win_fields (ev : xcb_configure_request_event_t) : List (Nat × Int) :=
  [(0, ev.x), (1, ev.y), (2, ev.width), (3, ev.height), (4, ev.border_width),
   (5, ev.sibling), (6, ev.stack_mode)]

/-- No window identifier is both the window of a client of the table and the
window of a record of the embedded-window set. -/
def disjoint_tables (s : State) : Prop :=
  ∀ w ∈ s.clients.map (fun c => c.window), w ∉ s.embedded.map (fun em => em.window)

instance (s : State) : Decidable (disjoint_tables s) :=
  inferInstanceAs
    (Decidable (∀ w ∈ s.clients.map (fun c : client_t => c.window),
      w ∉ s.embedded.map (fun em : xembed_window_t => em.window)))

/-- The window 256 embedded, no client. -/
def sample_embedded_only : State :=
  { sample_empty with embedded := [{ window := 256, info := 0 }] }

/-- The sample client minimized. -/
def sample_minimized : State :=
  { sample_state with clients := [{ sample_client with minimized := true }] }

/-- The sample state with three numbers on the script stack. -/
def sample_stacked : State :=
  { sample_state with
    stack := [LuaValue.number 1, LuaValue.number 2, LuaValue.number 3] }

/-! ## Theorems -/

theorem land_two_pow_ne_zero (n i : Nat) : n &&& 2 ^ i ≠ 0 ↔ n.testBit i = true := by
  constructor
  · intro h
    by_contra hb
    apply h
    apply Nat.eq_of_testBit_eq
    intro j
    simp only [Nat.testBit_and, Nat.testBit_two_pow, Nat.zero_testBit]
    by_cases hij : i = j
    · subst hij; simp [hb]
    · simp [hij]
  · intro hb h
    have := congrArg (fun m => Nat.testBit m i) h
    simp [Nat.testBit_and, Nat.testBit_two_pow, hb] at this

theorem configurerequest_geometry_eq (c : client_t) (ev : xcb_configure_request_event_t) :
    configurerequest_geometry c ev =
      { x := if ev.value_mask.testBit 0 then ev.x else c.geometry.x,
        y := if ev.value_mask.testBit 1 then ev.y else c.geometry.y,
        width := if ev.value_mask.testBit 2 then ev.width else c.geometry.width,
        height := if ev.value_mask.testBit 3 then ev.height else c.geometry.height } := by
  have h0 := land_two_pow_ne_zero ev.value_mask 0
  have h1 := land_two_pow_ne_zero ev.value_mask 1
  have h2 := land_two_pow_ne_zero ev.value_mask 2
  have h3 := land_two_pow_ne_zero ev.value_mask 3
  norm_num at h0 h1 h2 h3
  unfold configurerequest_geometry XCB_CONFIG_WINDOW_X XCB_CONFIG_WINDOW_Y
    XCB_CONFIG_WINDOW_WIDTH XCB_CONFIG_WINDOW_HEIGHT
  by_cases b0 : ev.value_mask.testBit 0 <;> by_cases b1 : ev.value_mask.testBit 1 <;>
    by_cases b2 : ev.value_mask.testBit 2 <;> by_cases b3 : ev.value_mask.testBit 3 <;>
    simp_all

theorem configurerequest_client_trace (policy : client_t → area_t → Bool × area_t)
    (s : State) (ev : xcb_configure_request_event_t) (c : client_t)
    (hc : client_getbywin s ev.window = some c) :
    (event_handle_configurerequest policy s ev).ret = 0
    ∧ ∃ pre post,
        (event_handle_configurerequest policy s ev).trace =
          pre ++ [Action.window_set_geometry c.window (configurerequest_geometry c ev)] ++ post
        ∧ (pre = [] ∨ pre = [Action.set_border_width c.window ev.border_width])
        ∧ (post = [] ∨ ∃ bw, post =
            [Action.xwindow_configure c.window (configurerequest_geometry c ev) bw]) := by
  simp only [event_handle_configurerequest, hc]
  by_cases hb : ev.value_mask &&& XCB_CONFIG_WINDOW_BORDER_WIDTH ≠ 0
  · simp only [if_pos hb]
    refine ⟨trivial, _, _, rfl, Or.inr rfl, ?_⟩
    cases (policy { c with border_width := ev.border_width }
      (configurerequest_geometry c ev)).1
    · exact Or.inr ⟨_, rfl⟩
    · exact Or.inl rfl
  · simp only [if_neg hb]
    refine ⟨trivial, _, _, rfl, Or.inl rfl, ?_⟩
    cases (policy c (configurerequest_geometry c ev)).1
    · exact Or.inr ⟨_, rfl⟩
    · exact Or.inl rfl

/-- C1: for a managed client the geometry handed to `window_set_geometry`, and to
`xwindow_configure` on fallback, takes x, y, width and height from the request
where bits 0 to 3 of the value mask (X, Y, WIDTH, HEIGHT) are set and from the
client's prior geometry otherwise; no other bit of the mask enters any of the
four fields. -/
theorem configurerequest_masked_overlay (policy : client_t → area_t → Bool × area_t)
    (s : State) (ev : xcb_configure_request_event_t) (c : client_t)
    (hc : client_getbywin s ev.window = some c) :
    let g : area_t :=
      { x := if ev.value_mask.testBit 0 then ev.x else c.geometry.x,
        y := if ev.value_mask.testBit 1 then ev.y else c.geometry.y,
        width := if ev.value_mask.testBit 2 then ev.width else c.geometry.width,
        height := if ev.value_mask.testBit 3 then ev.height else c.geometry.height }
    (event_handle_configurerequest policy s ev).ret = 0
    ∧ Action.window_set_geometry c.window g ∈ (event_handle_configurerequest policy s ev).trace
    ∧ (∀ a ∈ (event_handle_configurerequest policy s ev).trace,
        ∀ g', a.geometry_arg = some g' → g' = g) := by
  intro g
  have hg : configurerequest_geometry c ev = g := configurerequest_geometry_eq c ev
  obtain ⟨hret, pre, post, ht, hpre, hpost⟩ := configurerequest_client_trace policy s ev c hc
  rw [hg] at ht hpost
  refine ⟨hret, ?_, ?_⟩
  · rw [ht]; simp
  · intro a ha g' hg'
    rw [ht] at ha
    simp only [List.mem_append, List.mem_singleton] at ha
    rcases ha with (ha | ha) | ha
    · rcases hpre with hpre | hpre <;> rw [hpre] at ha
      · simp at ha
      · simp only [List.mem_singleton] at ha
        subst ha
        simp [Action.geometry_arg] at hg'
    · subst ha
      simp only [Action.geometry_arg, Option.some.injEq] at hg'
      exact hg'.symm
    · rcases hpost with hpost | ⟨bw, hpost⟩ <;> rw [hpost] at ha
      · simp at ha
      · simp only [List.mem_singleton] at ha
        subst ha
        simp only [Action.geometry_arg, Option.some.injEq] at hg'
        exact hg'.symm

/-- C1, the scenario: prior geometry {x:10, y:10, w:800, h:600}, mask
{WIDTH, HEIGHT}, width 1024, height 768. -/
theorem configurerequest_masked_overlay_witness :
    client_getbywin sample_state 256 = some sample_client
    ∧ Action.window_set_geometry 256 { x := 10, y := 10, width := 1024, height := 768 }
        ∈ (event_handle_configurerequest (fun _ g => (true, g)) sample_state
            { response_type := 23, stack_mode := 0, parent := 1, window := 256, sibling := 0,
              x := 0, y := 0, width := 1024, height := 768, border_width := 0,
              value_mask := 12 }).trace :=
  ⟨by decide,
   (configurerequest_masked_overlay (fun _ g => (true, g)) sample_state
      { response_type := 23, stack_mode := 0, parent := 1, window := 256, sibling := 0,
        x := 0, y := 0, width := 1024, height := 768, border_width := 0,
        value_mask := 12 } sample_client (by decide)).2.1⟩

theorem client_getbywin_client_manage (s : State) (w : Nat) (geom : xcb_get_geometry_reply_t)
    (h : client_getbywin s w = none) :
    client_getbywin (client_manage s w geom) w =
      some { window := w, buttons := [], keys := [],
             geometry := { x := geom.x, y := geom.y, width := geom.width, height := geom.height },
             border_width := geom.border_width, minimized := false } := by
  unfold client_getbywin at h
  simp [client_getbywin, client_manage, List.find?_append, h]

/-- C2 as stated fails: window 0x100 is no client, its attribute reply reports
override_redirect = false and a geometry reply is available, but the window is
in the embedded-window set; the handler maps and activates it, never calls
`client_manage`, and the client table keeps its size. -/
theorem maprequest_embedded_not_managed :
    let s : State := { sample_empty with embedded := [{ window := 256, info := 0 }] }
    let o := event_handle_maprequest (some { override_redirect := false }) (some sample_geom)
      (fun _ => true) s { response_type := 20, parent := 1, window := 256 }
    client_getbywin s 256 = none
    ∧ o.trace = [Action.get_window_attributes 256, Action.map_window 256,
                 Action.xembed_window_activate 256]
    ∧ o.trace.filter Action.is_client_manage = []
    ∧ o.state.clients.length = s.clients.length := by
  decide

/-- C2, amended: for a window that is neither a managed client nor in the
embedded-window set, whose attribute reply reports override_redirect = false,
when both replies arrive the handler calls `client_manage` exactly once, with
the window and the queried geometry reply, and returns 0; the client table
grows by exactly one and the window resolves to a client with the queried
geometry. -/
theorem maprequest_manages_once (wa : xcb_get_window_attributes_reply_t)
    (geom : xcb_get_geometry_reply_t) (ewindow_isvisible : client_t → Bool)
    (s : State) (ev : xcb_map_request_event_t)
    (hclient : client_getbywin s ev.window = none)
    (hembed : xembed_getbywin s.embedded ev.window = none)
    (hor : wa.override_redirect = false) :
    (event_handle_maprequest (some wa) (some geom) ewindow_isvisible s ev).ret = 0
    ∧ (event_handle_maprequest (some wa) (some geom) ewindow_isvisible s ev).trace.filter
        Action.is_client_manage = [Action.client_manage ev.window geom false]
    ∧ (event_handle_maprequest (some wa) (some geom) ewindow_isvisible s ev).state.clients.length
        = s.clients.length + 1
    ∧ ∃ c, client_getbywin
          (event_handle_maprequest (some wa) (some geom) ewindow_isvisible s ev).state
          ev.window = some c
        ∧ c.geometry = { x := geom.x, y := geom.y, width := geom.width, height := geom.height }
        ∧ c.border_width = geom.border_width := by
  have ho : event_handle_maprequest (some wa) (some geom) ewindow_isvisible s ev =
      { ret := 0, state := client_manage s ev.window geom,
        trace := [Action.get_window_attributes ev.window, Action.get_geometry ev.window,
                  Action.client_manage ev.window geom false] } := by
    simp [event_handle_maprequest, hclient, hembed, hor]
  rw [ho]
  refine ⟨rfl, by simp [Action.is_client_manage], by simp [client_manage], ?_⟩
  exact ⟨_, client_getbywin_client_manage s ev.window geom hclient, rfl, rfl⟩

/-- C2, the scenario: window 0x100, geometry {x:0, y:0, w:800, h:600, border:0},
no client managed before. -/
theorem maprequest_manages_once_witness :
    (event_handle_maprequest (some { override_redirect := false }) (some sample_geom)
        (fun _ => true) sample_empty { response_type := 20, parent := 1, window := 256 }).ret = 0
    ∧ (event_handle_maprequest (some { override_redirect := false }) (some sample_geom)
        (fun _ => true) sample_empty
        { response_type := 20, parent := 1, window := 256 }).state.clients.length = 0 + 1 :=
  have h := maprequest_manages_once { override_redirect := false } sample_geom
    (fun _ => true) sample_empty { response_type := 20, parent := 1, window := 256 }
    (by decide) (by decide) rfl
  ⟨h.1, h.2.2.1⟩

/-- C3: the map-request handler returns -1 exactly when the attributes reply is
absent, or the window is not override-redirect, not embedded, not a client and
the geometry reply is absent; then the state is untouched and the only calls
made are the two queries; in every other case it returns 0. -/
theorem maprequest_failure_status (wa_r : Option xcb_get_window_attributes_reply_t)
    (geom_r : Option xcb_get_geometry_reply_t) (ewindow_isvisible : client_t → Bool)
    (s : State) (ev : xcb_map_request_event_t) :
    ((event_handle_maprequest wa_r geom_r ewindow_isvisible s ev).ret = -1 ↔
      (wa_r = none ∨
        (∃ wa, wa_r = some wa ∧ wa.override_redirect = false
          ∧ xembed_getbywin s.embedded ev.window = none
          ∧ client_getbywin s ev.window = none ∧ geom_r = none)))
    ∧ ((event_handle_maprequest wa_r geom_r ewindow_isvisible s ev).ret = -1 →
        (event_handle_maprequest wa_r geom_r ewindow_isvisible s ev).state = s
        ∧ (∀ a ∈ (event_handle_maprequest wa_r geom_r ewindow_isvisible s ev).trace,
            a = Action.get_window_attributes ev.window ∨ a = Action.get_geometry ev.window)
        ∧ (event_handle_maprequest wa_r geom_r ewindow_isvisible s ev).trace.filter
            Action.is_window_action = []
        ∧ (event_handle_maprequest wa_r geom_r ewindow_isvisible s ev).trace.filter
            Action.is_client_manage = [])
    ∧ ((event_handle_maprequest wa_r geom_r ewindow_isvisible s ev).ret ≠ -1 →
        (event_handle_maprequest wa_r geom_r ewindow_isvisible s ev).ret = 0) := by
  unfold event_handle_maprequest
  cases wa_r with
  | none => simp [Action.is_window_action, Action.is_client_manage]
  | some wa =>
    cases hor : wa.override_redirect with
    | true => simp [hor]
    | false =>
      cases hem : xembed_getbywin s.embedded ev.window with
      | some em => simp [hor, hem]
      | none =>
        cases hcl : client_getbywin s ev.window with
        | some c => cases hv : ewindow_isvisible c <;> simp [hor, hem, hcl, hv]
        | none =>
          cases geom_r with
          | none => simp [hor, hem, hcl, Action.is_window_action, Action.is_client_manage]
          | some geom => simp [hor, hem, hcl]

/-- C3, an instance: no geometry reply for an unknown window gives -1 and leaves
the state as it was. -/
theorem maprequest_failure_status_witness :
    (event_handle_maprequest (some { override_redirect := false }) none (fun _ => true)
        sample_empty { response_type := 20, parent := 1, window := 256 }).ret = -1
    ∧ (event_handle_maprequest (some { override_redirect := false }) none (fun _ => true)
        sample_empty { response_type := 20, parent := 1, window := 256 }).state = sample_empty :=
  have h := maprequest_failure_status (some { override_redirect := false }) none
    (fun _ => true) sample_empty { response_type := 20, parent := 1, window := 256 }
  ⟨by decide, (h.2.1 (by decide)).1⟩

theorem not_true_boolean_iff (v : LuaValue) :
    (!lua_isboolean v || !lua_toboolean v) = true ↔ v ≠ LuaValue.boolean true := by
  cases v with
  | boolean b => cases b <;> simp [lua_isboolean, lua_toboolean]
  | _ => simp [lua_isboolean, lua_toboolean]

theorem event_handle_mousegrabber_some
    (call : LuaValue → List LuaValue → Except LuaValue LuaValue)
    (s : State) (x y : Int) (mask g : Nat) (hg : s.mousegrabber = some g) :
    event_handle_mousegrabber call s x y mask =
      mousegrabber_result (call (LuaValue.function g) [LuaValue.pointer_state x y mask])
        (LuaValue.function g) [LuaValue.pointer_state x y mask] s := by
  obtain ⟨root, clients, embedded, mg, kg, focus, stack⟩ := s
  simp only at hg
  subst hg
  simp only [event_handle_mousegrabber, lua_pcall, luaA_object_push, lua_push, lua_pop,
    lua_index, mousegrabber_result]
  cases hcall : call (LuaValue.function g) [LuaValue.pointer_state x y mask] with
  | error e => simp [hcall, luaA_mousegrabber_stop]
  | ok v =>
    by_cases hv : v = LuaValue.boolean true
    · subst hv
      simp [hcall, lua_isboolean, lua_toboolean]
    · have hb := (not_true_boolean_iff v).2 hv
      simp only [Bool.or_eq_true, Bool.not_eq_true'] at hb
      simp [hcall, hv, hb, luaA_mousegrabber_stop]

theorem event_handle_key_grabbed
    (call : LuaValue → List LuaValue → Except LuaValue LuaValue)
    (handlekpress : xcb_key_press_event_t → Option (LuaValue × LuaValue × LuaValue))
    (keyresolv_get_keysym : Nat → Nat → Nat)
    (s : State) (ev : xcb_key_press_event_t) (g : Nat) (hg : s.keygrabber = some g) :
    event_handle_key call handlekpress keyresolv_get_keysym s ev =
      match handlekpress ev with
      | some (a, b, c) =>
        keygrabber_result (call (LuaValue.function g) [a, b, c]) (LuaValue.function g) [a, b, c] s
      | none => { ret := 0, state := s, trace := [] } := by
  obtain ⟨root, clients, embedded, mg, kg, focus, stack⟩ := s
  simp only at hg
  subst hg
  simp only [event_handle_key, lua_pcall, luaA_object_push, lua_push, lua_pop,
    lua_index, keygrabber_result]
  cases hk : handlekpress ev with
  | none => simp
  | some abc =>
    obtain ⟨a, b, c⟩ := abc
    cases hcall : call (LuaValue.function g) [a, b, c] with
    | error e => simp [hcall, luaA_keygrabber_stop]
    | ok v =>
      by_cases hv : v = LuaValue.boolean true
      · subst hv
        simp [hcall, lua_isboolean, lua_toboolean]
      · have hb := (not_true_boolean_iff v).2 hv
        simp only [Bool.or_eq_true, Bool.not_eq_true'] at hb
        simp [hcall, hv, hb, luaA_keygrabber_stop]

theorem signal_emissions_mousegrabber_result (r : Except LuaValue LuaValue) (f : LuaValue)
    (args : List LuaValue) (s : State) :
    signal_emissions (mousegrabber_result r f args s).2.1 = []
    ∧ (mousegrabber_result r f args s).2.2 = true := by
  unfold mousegrabber_result
  cases r with
  | error e => simp [signal_emissions, Action.emission]
  | ok v => by_cases hv : v = LuaValue.boolean true <;> simp [hv, signal_emissions, Action.emission]

theorem mousegrabber_result_trace (r : Except LuaValue LuaValue) (f : LuaValue)
    (args : List LuaValue) (s s' : State) :
    (mousegrabber_result r f args s).2 = (mousegrabber_result r f args s').2 := by
  unfold mousegrabber_result
  cases r with
  | error e => rfl
  | ok v => by_cases hv : v = LuaValue.boolean true <;> simp [hv]

theorem keygrabber_result_trace (r : Except LuaValue LuaValue) (f : LuaValue)
    (args : List LuaValue) (s s' : State) :
    (keygrabber_result r f args s).trace = (keygrabber_result r f args s').trace
    ∧ signal_emissions (keygrabber_result r f args s).trace = [] := by
  unfold keygrabber_result
  cases r with
  | error e => simp [signal_emissions, Action.emission]
  | ok v => by_cases hv : v = LuaValue.boolean true <;> simp [hv, signal_emissions, Action.emission]

/-- C4: while a pointer-grab owner is set the button handler, and while a
key-grab owner is set the key handler, emits no signal, and the calls it makes
are the same whatever the root and the client table (hence whatever bindings
they hold) are: no window is resolved and no binding is scanned. -/
theorem grab_precedence (call : LuaValue → List LuaValue → Except LuaValue LuaValue)
    (handlekpress : xcb_key_press_event_t → Option (LuaValue × LuaValue × LuaValue))
    (keyresolv_get_keysym : Nat → Nat → Nat) (s : State) :
    (∀ (g : Nat) (ev : xcb_button_press_event_t), s.mousegrabber = some g →
        signal_emissions (event_handle_button call s ev).trace = []
        ∧ ∀ (root : window_t) (clients : List client_t),
            (event_handle_button call { s with root := root, clients := clients } ev).trace
              = (event_handle_button call s ev).trace)
    ∧ (∀ (g : Nat) (ev : xcb_key_press_event_t), s.keygrabber = some g →
        signal_emissions (event_handle_key call handlekpress keyresolv_get_keysym s ev).trace = []
        ∧ ∀ (root : window_t) (clients : List client_t),
            (event_handle_key call handlekpress keyresolv_get_keysym
                { s with root := root, clients := clients } ev).trace
              = (event_handle_key call handlekpress keyresolv_get_keysym s ev).trace) := by
  constructor
  · intro g ev hg
    have hb : ∀ s' : State, s'.mousegrabber = some g →
        (event_handle_button call s' ev).trace =
          (mousegrabber_result (call (LuaValue.function g)
            [LuaValue.pointer_state ev.root_x ev.root_y (button_grab_mask ev.detail)])
            (LuaValue.function g)
            [LuaValue.pointer_state ev.root_x ev.root_y (button_grab_mask ev.detail)] s').2.1 := by
      intro s' hs'
      have h2 := event_handle_mousegrabber_some call s' ev.root_x ev.root_y
        (button_grab_mask ev.detail) g hs'
      unfold event_handle_button
      simp only [h2, (signal_emissions_mousegrabber_result _ _ _ _).2, if_true]
    refine ⟨?_, ?_⟩
    · rw [hb s hg]
      exact (signal_emissions_mousegrabber_result _ _ _ _).1
    · intro root clients
      rw [hb s hg, hb { s with root := root, clients := clients } hg]
      exact congrArg Prod.fst (mousegrabber_result_trace _ _ _ _ _)
  · intro g ev hg
    have hk : ∀ s' : State, s'.keygrabber = some g →
        (event_handle_key call handlekpress keyresolv_get_keysym s' ev).trace =
          match handlekpress ev with
          | some (a, b, c) =>
            (keygrabber_result (call (LuaValue.function g) [a, b, c])
              (LuaValue.function g) [a, b, c] s').trace
          | none => [] := by
      intro s' hs'
      rw [event_handle_key_grabbed call handlekpress keyresolv_get_keysym s' ev g hs']
      cases handlekpress ev with
      | none => rfl
      | some abc => rfl
    refine ⟨?_, ?_⟩
    · rw [hk s hg]
      cases handlekpress ev with
      | none => rfl
      | some abc => exact (keygrabber_result_trace _ _ _ s s).2
    · intro root clients
      rw [hk s hg, hk { s with root := root, clients := clients } hg]
      cases handlekpress ev with
      | none => rfl
      | some abc => exact (keygrabber_result_trace _ _ _ _ _).1

/-- C4, an instance: with both grab owners set, a button press and a key press
on a client holding matching bindings emit nothing. -/
theorem grab_precedence_witness :
    signal_emissions (event_handle_button (fun _ _ => Except.ok (LuaValue.boolean true))
        sample_grabbed { response_type := 4, detail := 1, event := 256, root_x := 5, root_y := 6,
                         state := 0 }).trace = []
    ∧ signal_emissions (event_handle_key (fun _ _ => Except.ok (LuaValue.boolean true))
        (fun _ => some (LuaValue.nil, LuaValue.string "a", LuaValue.string "press"))
        (fun _ _ => 97) sample_grabbed
        { response_type := 2, detail := 38, event := 256, state := 64 }).trace = [] :=
  ⟨((grab_precedence (fun _ _ => Except.ok (LuaValue.boolean true))
      (fun _ => some (LuaValue.nil, LuaValue.string "a", LuaValue.string "press"))
      (fun _ _ => 97) sample_grabbed).1 7
      { response_type := 4, detail := 1, event := 256, root_x := 5, root_y := 6, state := 0 }
      rfl).1,
   ((grab_precedence (fun _ _ => Except.ok (LuaValue.boolean true))
      (fun _ => some (LuaValue.nil, LuaValue.string "a", LuaValue.string "press"))
      (fun _ _ => 97) sample_grabbed).2 8
      { response_type := 2, detail := 38, event := 256, state := 64 } rfl).1⟩

theorem mousegrabber_result_stop (r : Except LuaValue LuaValue) (f : LuaValue)
    (args : List LuaValue) (s : State) (g : Nat) (hg : s.mousegrabber = some g) :
    (Action.mousegrabber_stop ∈ (mousegrabber_result r f args s).2.1 ↔
      r ≠ Except.ok (LuaValue.boolean true))
    ∧ ((mousegrabber_result r f args s).1.mousegrabber = some g ↔
      r = Except.ok (LuaValue.boolean true))
    ∧ Action.pcall f args ∈ (mousegrabber_result r f args s).2.1 := by
  unfold mousegrabber_result
  cases r with
  | error e => simp [luaA_mousegrabber_stop]
  | ok v =>
    by_cases hv : v = LuaValue.boolean true
    · simp [hv, hg]
    · simp [hv, luaA_mousegrabber_stop]

theorem keygrabber_result_stop (r : Except LuaValue LuaValue) (f : LuaValue)
    (args : List LuaValue) (s : State) (g : Nat) (hg : s.keygrabber = some g) :
    (Action.keygrabber_stop ∈ (keygrabber_result r f args s).trace ↔
      r ≠ Except.ok (LuaValue.boolean true))
    ∧ ((keygrabber_result r f args s).state.keygrabber = some g ↔
      r = Except.ok (LuaValue.boolean true))
    ∧ Action.pcall f args ∈ (keygrabber_result r f args s).trace := by
  unfold keygrabber_result
  cases r with
  | error e => simp [luaA_keygrabber_stop]
  | ok v =>
    by_cases hv : v = LuaValue.boolean true
    · simp [hv, hg]
    · simp [hv, luaA_keygrabber_stop]

theorem ne_ok_true_iff (r : Except LuaValue LuaValue) :
    r ≠ Except.ok (LuaValue.boolean true) ↔
      ((∃ e, r = Except.error e) ∨ ∃ v, r = Except.ok v ∧ v ≠ LuaValue.boolean true) := by
  cases r with
  | error e => simp
  | ok v => simp

/-- C5: whenever the grab callback is invoked, by `event_handle_mousegrabber` for
the pointer grab or by `event_handle_key` for the key grab, the stop routine is
called if and only if the protected call raised an error or returned a value
other than the boolean true, and the grab owner is still set afterwards exactly
when the callback returned the boolean true. -/
theorem grab_termination (call : LuaValue → List LuaValue → Except LuaValue LuaValue)
    (handlekpress : xcb_key_press_event_t → Option (LuaValue × LuaValue × LuaValue))
    (keyresolv_get_keysym : Nat → Nat → Nat) (s : State) :
    (∀ (g : Nat) (x y : Int) (mask : Nat), s.mousegrabber = some g →
        Action.pcall (LuaValue.function g) [LuaValue.pointer_state x y mask]
          ∈ (event_handle_mousegrabber call s x y mask).2.1
        ∧ (Action.mousegrabber_stop ∈ (event_handle_mousegrabber call s x y mask).2.1 ↔
            ((∃ e, call (LuaValue.function g) [LuaValue.pointer_state x y mask] = Except.error e)
              ∨ ∃ v, call (LuaValue.function g) [LuaValue.pointer_state x y mask] = Except.ok v
                  ∧ v ≠ LuaValue.boolean true))
        ∧ ((event_handle_mousegrabber call s x y mask).1.mousegrabber = some g ↔
            call (LuaValue.function g) [LuaValue.pointer_state x y mask]
              = Except.ok (LuaValue.boolean true)))
    ∧ (∀ (g : Nat) (ev : xcb_key_press_event_t) (a b c : LuaValue),
        s.keygrabber = some g → handlekpress ev = some (a, b, c) →
        Action.pcall (LuaValue.function g) [a, b, c]
          ∈ (event_handle_key call handlekpress keyresolv_get_keysym s ev).trace
        ∧ (Action.keygrabber_stop
              ∈ (event_handle_key call handlekpress keyresolv_get_keysym s ev).trace ↔
            ((∃ e, call (LuaValue.function g) [a, b, c] = Except.error e)
              ∨ ∃ v, call (LuaValue.function g) [a, b, c] = Except.ok v
                  ∧ v ≠ LuaValue.boolean true))
        ∧ ((event_handle_key call handlekpress keyresolv_get_keysym s ev).state.keygrabber
              = some g ↔
            call (LuaValue.function g) [a, b, c] = Except.ok (LuaValue.boolean true))) := by
  constructor
  · intro g x y mask hg
    rw [event_handle_mousegrabber_some call s x y mask g hg, ← ne_ok_true_iff]
    have h := mousegrabber_result_stop (call (LuaValue.function g)
      [LuaValue.pointer_state x y mask]) (LuaValue.function g)
      [LuaValue.pointer_state x y mask] s g hg
    exact ⟨h.2.2, h.1, h.2.1⟩
  · intro g ev a b c hg hk
    rw [event_handle_key_grabbed call handlekpress keyresolv_get_keysym s ev g hg, hk,
      ← ne_ok_true_iff]
    have h := keygrabber_result_stop (call (LuaValue.function g) [a, b, c])
      (LuaValue.function g) [a, b, c] s g hg
    exact ⟨h.2.2, h.1, h.2.1⟩

/-- C5, an instance: a pointer-grab callback returning the number 1 (not a
boolean) and a key-grab callback returning false both stop their grab. -/
theorem grab_termination_witness :
    Action.mousegrabber_stop
      ∈ (event_handle_mousegrabber (fun _ _ => Except.ok (LuaValue.number 1))
          sample_grabbed 5 6 256).2.1
    ∧ Action.keygrabber_stop
      ∈ (event_handle_key (fun _ _ => Except.ok (LuaValue.boolean false))
          (fun _ => some (LuaValue.nil, LuaValue.string "a", LuaValue.string "press"))
          (fun _ _ => 97) sample_grabbed
          { response_type := 2, detail := 38, event := 256, state := 64 }).trace :=
  ⟨((grab_termination (fun _ _ => Except.ok (LuaValue.number 1))
      (fun _ => none) (fun _ _ => 0) sample_grabbed).1 7 5 6 256 rfl).2.1.2
      (Or.inr ⟨LuaValue.number 1, rfl, by decide⟩),
   ((grab_termination (fun _ _ => Except.ok (LuaValue.boolean false))
      (fun _ => some (LuaValue.nil, LuaValue.string "a", LuaValue.string "press"))
      (fun _ _ => 97) sample_grabbed).2 8
      { response_type := 2, detail := 38, event := 256, state := 64 }
      LuaValue.nil (LuaValue.string "a") (LuaValue.string "press") rfl rfl).2.1.2
      (Or.inr ⟨LuaValue.boolean false, rfl, by decide⟩)⟩

theorem event_hook_scan_eq {α : Type} (m : α → Bool) (wrap : α → LuaValue) :
    ∀ (arr : List α) (s : State) (n : Nat),
      event_hook_scan m wrap arr (s, n) =
        ({ s with stack := ((arr.filter m).map wrap).reverse ++ s.stack },
         n + (arr.filter m).length)
  | [], s, n => by cases s; simp [event_hook_scan]
  | item :: rest, s, n => by
    cases s
    by_cases h : m item = true
    · simp [event_hook_scan, h, event_hook_scan_eq m wrap rest, luaA_object_push, lua_push]
      omega
    · simp [event_hook_scan, h, event_hook_scan_eq m wrap rest]

theorem lua_pushvalue_times_eq (k : Nat) :
    ∀ (j : Nat) (s : State), j ≤ k → k ≤ s.stack.length →
      lua_pushvalue_times k j s =
        { s with stack := (s.stack.drop (k - j)).take j ++ s.stack }
  | 0, s, _, _ => by cases s; simp [lua_pushvalue_times]
  | j + 1, s, hj, hk => by
    obtain ⟨root, clients, embedded, mg, kg, focus, L⟩ := s
    simp only at hk
    have ih := lua_pushvalue_times_eq k j
      (lua_pushvalue ⟨root, clients, embedded, mg, kg, focus, L⟩ k) (by omega)
      (by simp only [lua_pushvalue, lua_push, List.length_cons]; omega)
    rw [lua_pushvalue_times, ih]
    simp only [lua_pushvalue, lua_push, lua_index]
    congr 1
    obtain ⟨d, hd⟩ : ∃ d, k = d + (j + 1) := ⟨k - (j + 1), by omega⟩
    subst hd
    have e1 : d + (j + 1) - j = d + 1 := by omega
    have e2 : d + (j + 1) - (j + 1) = d := by omega
    have e3 : d + (j + 1) - 1 = d + j := by omega
    have hlt : d + j < L.length := by omega
    rw [e1, e2, e3, List.drop_succ_cons, List.take_succ, List.getElem?_drop]
    simp [List.getElem?_eq_getElem hlt]

theorem event_hook_emit_case_eq (name : String) (nargs : Nat) (o : LuaValue)
    (ms A rest : List LuaValue) (s : State) (t : List Action)
    (hs : s.stack = o :: ms ++ (A ++ rest)) (hA : A.length = nargs) :
    event_hook_emit_case name nargs (ms.length + 1) (s, t) =
      (s, t ++ [Action.emit_signal o name A.reverse]) := by
  obtain ⟨root, clients, embedded, mg, kg, focus, L⟩ := s
  simp only at hs
  subst hs
  subst hA
  have hlen : A.length + (ms.length + 1) ≤ (o :: ms ++ (A ++ rest)).length := by
    simp only [List.length_cons, List.length_append]; omega
  simp only [event_hook_emit_case]
  rw [lua_pushvalue_times_eq _ _ _ (by omega) hlen]
  have e1 : A.length + (ms.length + 1) - A.length = (o :: ms).length := by
    simp only [List.length_cons]; omega
  simp only [e1, luaA_object_emit_signal, lua_pop, lua_index]
  have hd : List.drop (o :: ms).length (o :: ms ++ (A ++ rest)) = A ++ rest := by
    exact List.drop_left' rfl
  have ht : List.take A.length (A ++ rest) = A := List.take_left' rfl
  rw [hd, ht]
  have h1 : List.drop A.length (A ++ (o :: ms ++ (A ++ rest))) = o :: ms ++ (A ++ rest) :=
    List.drop_left' rfl
  have h2 : List.take A.length (A ++ (o :: ms ++ (A ++ rest))) = A := List.take_left' rfl
  have h3 : (A ++ (o :: ms ++ (A ++ rest))).getD (A.length + 1 - 1) LuaValue.nil = o := by
    rw [Nat.add_sub_cancel, List.getD_append_right _ _ _ _ (Nat.le_refl _)]
    simp
  rw [h1, h2, h3]

theorem event_hook_emit_eq (press release rt nargs : Nat) (name : String)
    (hname : (rt = press ∧ name = "press") ∨ (rt ≠ press ∧ rt = release ∧ name = "release")) :
    ∀ (ms A rest : List LuaValue) (s : State) (t : List Action),
      s.stack = ms ++ (A ++ rest) → A.length = nargs →
      event_hook_emit press release rt nargs ms.length (s, t) =
        ({ s with stack := A ++ rest },
         t ++ ms.map (fun o => Action.emit_signal o name A.reverse))
  | [], A, rest, s, t, hs, _ => by
    cases s
    simp only [List.nil_append] at hs
    subst hs
    simp [event_hook_emit]
  | o :: ms, A, rest, s, t, hs, hA => by
    have hstep : event_hook_emit_step press release rt nargs (ms.length + 1) (s, t) =
        ({ s with stack := ms ++ (A ++ rest) }, t ++ [Action.emit_signal o name A.reverse]) := by
      have hc := event_hook_emit_case_eq name nargs o ms A rest s t hs hA
      unfold event_hook_emit_step
      rcases hname with ⟨h1, h2⟩ | ⟨h1, h2, h3⟩
      · subst h2
        rw [if_pos h1, hc]
        simp [lua_pop, hs]
      · subst h3
        rw [if_neg h1, if_pos h2, hc]
        simp [lua_pop, hs]
    rw [List.length_cons, event_hook_emit, hstep,
      event_hook_emit_eq press release rt nargs name hname ms A rest _ _ rfl hA]
    simp

theorem event_hook_callback_eq {α : Type} (m : α → Bool) (wrap : α → LuaValue)
    (press release rt : Nat) (name : String)
    (hname : (rt = press ∧ name = "press") ∨ (rt ≠ press ∧ rt = release ∧ name = "release"))
    (arr : List α) (A rest : List LuaValue) (s : State) (hs : s.stack = A ++ rest) :
    event_hook_callback m wrap press release rt arr A.length s =
      ({ s with stack := rest },
       ((arr.filter m).map wrap).reverse.map (fun o => Action.emit_signal o name A.reverse)) := by
  unfold event_hook_callback
  simp only [event_hook_scan_eq]
  have hl : 0 + (arr.filter m).length = ((arr.filter m).map wrap).reverse.length := by simp
  rw [hl, event_hook_emit_eq press release rt A.length name hname
    ((arr.filter m).map wrap).reverse A rest _ [] (by simp [hs]) rfl]
  simp [lua_pop]

theorem event_handle_button_ungrabbed
    (call : LuaValue → List LuaValue → Except LuaValue LuaValue)
    (s : State) (ev : xcb_button_press_event_t) (window : window_t) (name : String)
    (hg : s.mousegrabber = none) (hw : window_getbywin s ev.event = some window)
    (hname : (ev.response_type = XCB_BUTTON_PRESS ∧ name = "press")
      ∨ (ev.response_type = XCB_BUTTON_RELEASE ∧ name = "release")) :
    event_handle_button call s ev =
      { ret := 0, state := s,
        trace := ((window.buttons.filter (event_button_match ev)).map LuaValue.button).reverse.map
          (fun o => Action.emit_signal o name [LuaValue.window window]) } := by
  have hname' : (ev.response_type = XCB_BUTTON_PRESS ∧ name = "press")
      ∨ (ev.response_type ≠ XCB_BUTTON_PRESS ∧ ev.response_type = XCB_BUTTON_RELEASE
          ∧ name = "release") := by
    rcases hname with h | ⟨h1, h2⟩
    · exact Or.inl h
    · exact Or.inr ⟨by rw [h1]; decide, h1, h2⟩
  have hcb := event_hook_callback_eq (event_button_match ev) LuaValue.button
    XCB_BUTTON_PRESS XCB_BUTTON_RELEASE ev.response_type name hname' window.buttons
    [LuaValue.window window] s.stack (luaA_object_push s (LuaValue.window window)) rfl
  simp only [List.length_singleton, List.reverse_singleton] at hcb
  cases s
  simp only at hg
  subst hg
  simp only [event_handle_button, event_handle_mousegrabber, hw, event_button_callback, hcb]
  simp [luaA_object_push, lua_push]

theorem event_handle_key_ungrabbed
    (call : LuaValue → List LuaValue → Except LuaValue LuaValue)
    (handlekpress : xcb_key_press_event_t → Option (LuaValue × LuaValue × LuaValue))
    (keyresolv_get_keysym : Nat → Nat → Nat)
    (s : State) (ev : xcb_key_press_event_t) (window : window_t) (name : String)
    (hg : s.keygrabber = none) (hw : window_getbywin s ev.event = some window)
    (hname : (ev.response_type = XCB_KEY_PRESS ∧ name = "press")
      ∨ (ev.response_type = XCB_KEY_RELEASE ∧ name = "release")) :
    event_handle_key call handlekpress keyresolv_get_keysym s ev =
      { ret := 0, state := s,
        trace := ((window.keys.filter
            (fun k => event_key_match ev k (keyresolv_get_keysym ev.detail 0))).map
              LuaValue.key).reverse.map
          (fun o => Action.emit_signal o name [LuaValue.window window]) } := by
  have hname' : (ev.response_type = XCB_KEY_PRESS ∧ name = "press")
      ∨ (ev.response_type ≠ XCB_KEY_PRESS ∧ ev.response_type = XCB_KEY_RELEASE
          ∧ name = "release") := by
    rcases hname with h | ⟨h1, h2⟩
    · exact Or.inl h
    · exact Or.inr ⟨by rw [h1]; decide, h1, h2⟩
  have hcb := event_hook_callback_eq
    (fun k => event_key_match ev k (keyresolv_get_keysym ev.detail 0)) LuaValue.key
    XCB_KEY_PRESS XCB_KEY_RELEASE ev.response_type name hname' window.keys
    [LuaValue.window window] s.stack (luaA_object_push s (LuaValue.window window)) rfl
  simp only [List.length_singleton, List.reverse_singleton] at hcb
  cases s
  simp only at hg
  subst hg
  simp only [event_handle_key, hw, event_key_callback, hcb]
  simp [luaA_object_push, lua_push]

theorem signal_emissions_emit_map (objs : List LuaValue) (name : String)
    (args : List LuaValue) :
    signal_emissions (objs.map (fun o => Action.emit_signal o name args))
      = objs.map (fun o => (o, name)) := by
  induction objs with
  | nil => rfl
  | cons o rest ih =>
    simp only [signal_emissions, List.map_cons, List.filterMap_cons, Action.emission] at ih ⊢
    rw [ih]

theorem emissions_are_map (objs : List LuaValue) (name : String) (args : List LuaValue)
    (all : List LuaValue) (n : Nat) (hn : objs.length = n) (hsub : ∀ o ∈ objs, o ∈ all) :
    emissions_are (objs.reverse.map (fun o => Action.emit_signal o name args)) n name all := by
  have hse := signal_emissions_emit_map objs.reverse name args
  refine ⟨by simp [hn], by rw [hse]; simp [hn], ?_⟩
  intro e he
  rw [hse] at he
  simp only [List.mem_map, List.mem_reverse] at he
  obtain ⟨o, ho, rfl⟩ := he
  exact ⟨rfl, hsub o ho⟩

/-- C6 as stated fails: a button press carrying the sent-event marker
(response type 132, that is 4 with bit 7 set) on a client holding three button
bindings, two of which match, is handled with no grab and resolves to the
client, yet the handler emits nothing: the `switch` on the response type has
no case for it. -/
theorem synthetic_press_emits_nothing :
    sample_state.mousegrabber = none
    ∧ window_getbywin sample_state 256 = some sample_client.towindow_t
    ∧ XCB_EVENT_SENT 132 = true
    ∧ 132 % 128 = XCB_BUTTON_PRESS
    ∧ sample_client.buttons.countP (event_button_match
        { response_type := 132, detail := 1, event := 256, root_x := 0, root_y := 0,
          state := 0 }) = 2
    ∧ (event_handle_button (fun _ _ => Except.ok LuaValue.nil) sample_state
        { response_type := 132, detail := 1, event := 256, root_x := 0, root_y := 0,
          state := 0 }).trace = []
    ∧ (signal_emissions (event_handle_button (fun _ _ => Except.ok LuaValue.nil) sample_state
        { response_type := 132, detail := 1, event := 256, root_x := 0, root_y := 0,
          state := 0 }).trace).length = 0 := by
  decide

/-- C6, amended: with no grab owner of its class, for an event whose response
type is exactly the press or the release code and whose window resolves to an
entity holding N bindings that satisfy the match predicate, the handler's calls
are exactly N signal emissions, each named "press" for a press event and
"release" for a release event, and each made for a matching binding of the
entity's collection. -/
theorem binding_dispatch_count (call : LuaValue → List LuaValue → Except LuaValue LuaValue)
    (handlekpress : xcb_key_press_event_t → Option (LuaValue × LuaValue × LuaValue))
    (keyresolv_get_keysym : Nat → Nat → Nat) (s : State) (window : window_t) (N : Nat) :
    (∀ ev : xcb_button_press_event_t, s.mousegrabber = none →
        window_getbywin s ev.event = some window →
        window.buttons.countP (event_button_match ev) = N →
        (ev.response_type = XCB_BUTTON_PRESS →
          emissions_are (event_handle_button call s ev).trace N "press"
            ((window.buttons.filter (event_button_match ev)).map LuaValue.button))
        ∧ (ev.response_type = XCB_BUTTON_RELEASE →
          emissions_are (event_handle_button call s ev).trace N "release"
            ((window.buttons.filter (event_button_match ev)).map LuaValue.button)))
    ∧ (∀ ev : xcb_key_press_event_t, s.keygrabber = none →
        window_getbywin s ev.event = some window →
        window.keys.countP
          (fun k => event_key_match ev k (keyresolv_get_keysym ev.detail 0)) = N →
        (ev.response_type = XCB_KEY_PRESS →
          emissions_are (event_handle_key call handlekpress keyresolv_get_keysym s ev).trace
            N "press"
            ((window.keys.filter
              (fun k => event_key_match ev k (keyresolv_get_keysym ev.detail 0))).map
                LuaValue.key))
        ∧ (ev.response_type = XCB_KEY_RELEASE →
          emissions_are (event_handle_key call handlekpress keyresolv_get_keysym s ev).trace
            N "release"
            ((window.keys.filter
              (fun k => event_key_match ev k (keyresolv_get_keysym ev.detail 0))).map
                LuaValue.key))) := by
  constructor
  · intro ev hg hw hN
    rw [List.countP_eq_length_filter] at hN
    constructor
    · intro hrt
      rw [event_handle_button_ungrabbed call s ev window "press" hg hw (Or.inl ⟨hrt, rfl⟩)]
      exact emissions_are_map _ _ _ _ _ (by simp [hN]) (fun o ho => ho)
    · intro hrt
      rw [event_handle_button_ungrabbed call s ev window "release" hg hw (Or.inr ⟨hrt, rfl⟩)]
      exact emissions_are_map _ _ _ _ _ (by simp [hN]) (fun o ho => ho)
  · intro ev hg hw hN
    rw [List.countP_eq_length_filter] at hN
    constructor
    · intro hrt
      rw [event_handle_key_ungrabbed call handlekpress keyresolv_get_keysym s ev window "press"
        hg hw (Or.inl ⟨hrt, rfl⟩)]
      exact emissions_are_map _ _ _ _ _ (by simp [hN]) (fun o ho => ho)
    · intro hrt
      rw [event_handle_key_ungrabbed call handlekpress keyresolv_get_keysym s ev window "release"
        hg hw (Or.inr ⟨hrt, rfl⟩)]
      exact emissions_are_map _ _ _ _ _ (by simp [hN]) (fun o ho => ho)

/-- C6, an instance: a press of button 1 without modifiers on a client holding
three button bindings, two of which match, makes two emissions named "press". -/
theorem binding_dispatch_count_witness :
    emissions_are (event_handle_button (fun _ _ => Except.ok LuaValue.nil) sample_state
        { response_type := 4, detail := 1, event := 256, root_x := 0, root_y := 0,
          state := 0 }).trace 2 "press"
      ((sample_client.buttons.filter (event_button_match
        { response_type := 4, detail := 1, event := 256, root_x := 0, root_y := 0,
          state := 0 })).map LuaValue.button) :=
  ((binding_dispatch_count (fun _ _ => Except.ok LuaValue.nil) (fun _ => none) (fun _ _ => 0)
      sample_state sample_client.towindow_t 2).1
    { response_type := 4, detail := 1, event := 256, root_x := 0, root_y := 0, state := 0 }
    rfl (by decide) (by decide)).1 rfl

/-- C7 as stated fails: a press of button 1 on a client whose collection is
[b1, b2], both matching, emits first on b2 and then on b1. -/
theorem binding_dispatch_order_counterexample :
    window_getbywin sample_two 256
        = some { window := 256, buttons := [sample_b1, sample_b2], keys := [sample_k1, sample_k2] }
    ∧ event_button_match { response_type := 4, detail := 1, event := 256, root_x := 0,
                           root_y := 0, state := 0 } sample_b1 = true
    ∧ event_button_match { response_type := 4, detail := 1, event := 256, root_x := 0,
                           root_y := 0, state := 0 } sample_b2 = true
    ∧ signal_emissions (event_handle_button (fun _ _ => Except.ok LuaValue.nil) sample_two
        { response_type := 4, detail := 1, event := 256, root_x := 0, root_y := 0,
          state := 0 }).trace
        = [(LuaValue.button sample_b2, "press"), (LuaValue.button sample_b1, "press")] := by
  decide

theorem signal_emissions_objects (objs : List LuaValue) (name : String) (args : List LuaValue) :
    (signal_emissions (objs.reverse.map (fun o => Action.emit_signal o name args))).map Prod.fst
      = objs.reverse := by
  rw [signal_emissions_emit_map, List.map_map]
  have hf : (Prod.fst ∘ fun o : LuaValue => (o, name)) = id := by
    funext o; rfl
  rw [hf, List.map_id]

/-- C7, amended: with no grab owner of its class, for a press or release event
whose window resolves to an entity, the emissions are made on the matching
bindings in reverse collection order: when A precedes B in the collection and
both match, the emission for B happens before the emission for A. -/
theorem binding_dispatch_reverse_order
    (call : LuaValue → List LuaValue → Except LuaValue LuaValue)
    (handlekpress : xcb_key_press_event_t → Option (LuaValue × LuaValue × LuaValue))
    (keyresolv_get_keysym : Nat → Nat → Nat) (s : State) (window : window_t) :
    (∀ ev : xcb_button_press_event_t, s.mousegrabber = none →
        window_getbywin s ev.event = some window →
        (ev.response_type = XCB_BUTTON_PRESS ∨ ev.response_type = XCB_BUTTON_RELEASE) →
        (signal_emissions (event_handle_button call s ev).trace).map Prod.fst
          = ((window.buttons.filter (event_button_match ev)).map LuaValue.button).reverse)
    ∧ (∀ ev : xcb_key_press_event_t, s.keygrabber = none →
        window_getbywin s ev.event = some window →
        (ev.response_type = XCB_KEY_PRESS ∨ ev.response_type = XCB_KEY_RELEASE) →
        (signal_emissions
            (event_handle_key call handlekpress keyresolv_get_keysym s ev).trace).map Prod.fst
          = ((window.keys.filter
              (fun k => event_key_match ev k (keyresolv_get_keysym ev.detail 0))).map
                LuaValue.key).reverse) := by
  constructor
  · intro ev hg hw hrt
    rcases hrt with hrt | hrt
    · rw [event_handle_button_ungrabbed call s ev window "press" hg hw (Or.inl ⟨hrt, rfl⟩)]
      exact signal_emissions_objects _ _ _
    · rw [event_handle_button_ungrabbed call s ev window "release" hg hw (Or.inr ⟨hrt, rfl⟩)]
      exact signal_emissions_objects _ _ _
  · intro ev hg hw hrt
    rcases hrt with hrt | hrt
    · rw [event_handle_key_ungrabbed call handlekpress keyresolv_get_keysym s ev window "press"
        hg hw (Or.inl ⟨hrt, rfl⟩)]
      exact signal_emissions_objects _ _ _
    · rw [event_handle_key_ungrabbed call handlekpress keyresolv_get_keysym s ev window "release"
        hg hw (Or.inr ⟨hrt, rfl⟩)]
      exact signal_emissions_objects _ _ _

/-- C7, the scenario: a button press matching the two bindings [b1, b2] of one
client fires for b2 first, then for b1. -/
theorem binding_dispatch_reverse_order_witness :
    (signal_emissions (event_handle_button (fun _ _ => Except.ok LuaValue.nil) sample_two
        { response_type := 4, detail := 1, event := 256, root_x := 0, root_y := 0,
          state := 0 }).trace).map Prod.fst
      = (([sample_b1, sample_b2].filter (event_button_match
          { response_type := 4, detail := 1, event := 256, root_x := 0, root_y := 0,
            state := 0 })).map LuaValue.button).reverse :=
  (binding_dispatch_reverse_order (fun _ _ => Except.ok LuaValue.nil) (fun _ => none)
      (fun _ _ => 0) sample_two
      { window := 256, buttons := [sample_b1, sample_b2], keys := [sample_k1, sample_k2] }).1
    { response_type := 4, detail := 1, event := 256, root_x := 0, root_y := 0, state := 0 }
    rfl (by decide) (Or.inl rfl)

/-- C8: `event_handle_focusin` calls `window_focus_update`, and
`event_handle_focusout` calls `window_unfocus_update`, on the resolved window if
and only if the detail is ancestor, inferior, nonlinear or nonlinear-virtual and
the event window resolves to an entity; for every other detail the state, and
with it the tracked focus, is left as it was.  Both handlers return 0. -/
theorem focus_filtering (s : State) (ev : xcb_focus_in_event_t) :
    (event_handle_focusin s ev).ret = 0 ∧ (event_handle_focusout s ev).ret = 0
    ∧ ((∃ w, Action.window_focus_update w ∈ (event_handle_focusin s ev).trace) ↔
        ((ev.detail = XCB_NOTIFY_DETAIL_ANCESTOR ∨ ev.detail = XCB_NOTIFY_DETAIL_INFERIOR
            ∨ ev.detail = XCB_NOTIFY_DETAIL_NONLINEAR
            ∨ ev.detail = XCB_NOTIFY_DETAIL_NONLINEAR_VIRTUAL)
          ∧ (window_getbywin s ev.event).isSome = true))
    ∧ ((∃ w, Action.window_unfocus_update w ∈ (event_handle_focusout s ev).trace) ↔
        ((ev.detail = XCB_NOTIFY_DETAIL_ANCESTOR ∨ ev.detail = XCB_NOTIFY_DETAIL_INFERIOR
            ∨ ev.detail = XCB_NOTIFY_DETAIL_NONLINEAR
            ∨ ev.detail = XCB_NOTIFY_DETAIL_NONLINEAR_VIRTUAL)
          ∧ (window_getbywin s ev.event).isSome = true))
    ∧ (∀ window : window_t,
        (ev.detail = XCB_NOTIFY_DETAIL_ANCESTOR ∨ ev.detail = XCB_NOTIFY_DETAIL_INFERIOR
            ∨ ev.detail = XCB_NOTIFY_DETAIL_NONLINEAR
            ∨ ev.detail = XCB_NOTIFY_DETAIL_NONLINEAR_VIRTUAL) →
        window_getbywin s ev.event = some window →
        (event_handle_focusin s ev).trace = [Action.window_focus_update window.window]
        ∧ (event_handle_focusin s ev).state = window_focus_update s window
        ∧ (event_handle_focusout s ev).trace = [Action.window_unfocus_update window.window]
        ∧ (event_handle_focusout s ev).state = window_unfocus_update s window)
    ∧ (¬ (ev.detail = XCB_NOTIFY_DETAIL_ANCESTOR ∨ ev.detail = XCB_NOTIFY_DETAIL_INFERIOR
            ∨ ev.detail = XCB_NOTIFY_DETAIL_NONLINEAR
            ∨ ev.detail = XCB_NOTIFY_DETAIL_NONLINEAR_VIRTUAL) →
        (event_handle_focusin s ev).trace = [] ∧ (event_handle_focusin s ev).state = s
        ∧ (event_handle_focusout s ev).trace = [] ∧ (event_handle_focusout s ev).state = s) := by
  have hq : (ev.detail = XCB_NOTIFY_DETAIL_ANCESTOR ∨ ev.detail = XCB_NOTIFY_DETAIL_INFERIOR
        ∨ ev.detail = XCB_NOTIFY_DETAIL_NONLINEAR_VIRTUAL
        ∨ ev.detail = XCB_NOTIFY_DETAIL_NONLINEAR) ↔
      (ev.detail = XCB_NOTIFY_DETAIL_ANCESTOR ∨ ev.detail = XCB_NOTIFY_DETAIL_INFERIOR
        ∨ ev.detail = XCB_NOTIFY_DETAIL_NONLINEAR
        ∨ ev.detail = XCB_NOTIFY_DETAIL_NONLINEAR_VIRTUAL) := by
    constructor <;> (intro h; rcases h with h | h | h | h <;> simp [h])
  unfold event_handle_focusin event_handle_focusout
  simp only [hq]
  by_cases h : (ev.detail = XCB_NOTIFY_DETAIL_ANCESTOR ∨ ev.detail = XCB_NOTIFY_DETAIL_INFERIOR
        ∨ ev.detail = XCB_NOTIFY_DETAIL_NONLINEAR
        ∨ ev.detail = XCB_NOTIFY_DETAIL_NONLINEAR_VIRTUAL)
  · simp only [if_pos h]
    cases hw : window_getbywin s ev.event with
    | none => simp [h]
    | some window => simp [h]
  · simp only [if_neg h]
    simp [h]

/-- C8, the two details of the scenario: a focus-in with detail nonlinear on a
client's window makes that window the focus, one with detail pointer-root keeps
the focus as it was. -/
theorem focus_filtering_witness :
    (event_handle_focusin sample_state
        { response_type := 9, detail := XCB_NOTIFY_DETAIL_NONLINEAR, event := 256,
          mode := 0 }).state.focus = some 256
    ∧ (event_handle_focusin sample_state
        { response_type := 9, detail := XCB_NOTIFY_DETAIL_POINTER_ROOT, event := 256,
          mode := 0 }).state.focus = none :=
  ⟨congrArg State.focus
      (((focus_filtering sample_state
        { response_type := 9, detail := XCB_NOTIFY_DETAIL_NONLINEAR, event := 256,
          mode := 0 }).2.2.2.2.1 sample_client.towindow_t (by decide) (by decide)).2.1),
   congrArg State.focus
      (((focus_filtering sample_state
        { response_type := 9, detail := XCB_NOTIFY_DETAIL_POINTER_ROOT, event := 256,
          mode := 0 }).2.2.2.2.2 (by decide)).2.1)⟩

/-- C9 as stated fails: a synthetic unmap notification for the window of a
managed client, with the queried state normal, whose `event` field is not the
root window, makes no call and leaves the client managed. -/
theorem unmapnotify_not_root_counterexample :
    client_getbywin sample_state 256 = some sample_client
    ∧ XCB_EVENT_SENT 146 = true
    ∧ (event_handle_unmapnotify XCB_WM_STATE_NORMAL sample_state
        { response_type := 146, event := 256, window := 256, from_configure := 0 }).trace = []
    ∧ client_getbywin (event_handle_unmapnotify XCB_WM_STATE_NORMAL sample_state
        { response_type := 146, event := 256, window := 256, from_configure := 0 }).state 256
        = some sample_client := by
  decide

/-- C9, amended: for a managed client C and an unmap notification for C's window
that was reported on the root window (its `event` field is the root) and
carries the synthetic marker, if the queried window state is normal then the
handler unmanages C. -/
theorem unmapnotify_withdrawal (wm_state : Nat) (s : State) (ev : xcb_unmap_notify_event_t)
    (c : client_t) (hc : client_getbywin s ev.window = some c)
    (hroot : ev.event = s.root.window) (hsent : XCB_EVENT_SENT ev.response_type = true)
    (hstate : wm_state = XCB_WM_STATE_NORMAL) :
    (event_handle_unmapnotify wm_state s ev).ret = 0
    ∧ (event_handle_unmapnotify wm_state s ev).trace
        = [Action.get_state c.window, Action.client_unmanage c.window]
    ∧ (event_handle_unmapnotify wm_state s ev).state = client_unmanage s c := by
  have hcond : ev.event = s.root.window ∧ XCB_EVENT_SENT ev.response_type = true :=
    ⟨hroot, hsent⟩
  unfold event_handle_unmapnotify
  rw [hc]
  simp only [if_pos hcond, if_pos hstate]
  exact ⟨trivial, trivial, trivial⟩

/-- C9, an instance: the synthetic unmap notification reported on the root
window 1 for client 0x100 empties the client table. -/
theorem unmapnotify_withdrawal_witness :
    (event_handle_unmapnotify 1 sample_state
        { response_type := 146, event := 1, window := 256, from_configure := 0 }).state.clients
      = [] :=
  congrArg State.clients
    (unmapnotify_withdrawal 1 sample_state
      { response_type := 146, event := 1, window := 256, from_configure := 0 }
      sample_client (by decide) (by decide) (by decide) (by decide)).2.2

theorem embedded_remove_eq_eraseP (w : Nat) (l : List xembed_window_t) :
    embedded_remove w l = l.eraseP (fun em => em.window == w) := by
  induction l with
  | nil => rfl
  | cons em rest ih =>
    by_cases h : em.window = w
    · simp [embedded_remove, h]
    · simp [embedded_remove, h, List.eraseP_cons, ih]

theorem embedded_remove_not_mem (w : Nat) (l : List xembed_window_t)
    (hnd : (l.map (fun em => em.window)).Nodup) :
    w ∉ (embedded_remove w l).map (fun em => em.window) := by
  induction l with
  | nil => simp [embedded_remove]
  | cons em rest ih =>
    simp only [List.map_cons, List.nodup_cons] at hnd
    by_cases h : em.window = w
    · simp only [embedded_remove, h, if_true]
      rw [← h]
      exact hnd.1
    · simp only [embedded_remove, h, if_false, List.map_cons, List.mem_cons, not_or]
      exact ⟨fun e => h e.symm, ih hnd.2⟩

/-- C10: on a destroy notification for window w, if w is a managed client the
handler unmanages that client and leaves the embedded-window set unchanged;
otherwise the set afterwards is the prior one with the first record whose
window is w erased and the other records kept in order, so that w is not a
member afterwards when identifiers are unique keys.  The same removal is made
by an unmap notification on a window that is not a client. -/
theorem destroynotify_removal (wm_state : Nat) (s : State) (w : Nat) :
    (∀ (ev : xcb_destroy_notify_event_t) (c : client_t), ev.window = w →
        client_getbywin s w = some c →
        (event_handle_destroynotify s ev).trace = [Action.client_unmanage c.window]
        ∧ (event_handle_destroynotify s ev).state = client_unmanage s c
        ∧ (event_handle_destroynotify s ev).state.embedded = s.embedded)
    ∧ (∀ ev : xcb_destroy_notify_event_t, ev.window = w → client_getbywin s w = none →
        (event_handle_destroynotify s ev).state.embedded
          = s.embedded.eraseP (fun em => em.window == w)
        ∧ (event_handle_destroynotify s ev).state.clients = s.clients
        ∧ ((s.embedded.map (fun em => em.window)).Nodup →
            w ∉ (event_handle_destroynotify s ev).state.embedded.map (fun em => em.window)))
    ∧ (∀ ev : xcb_unmap_notify_event_t, ev.window = w → client_getbywin s w = none →
        (event_handle_unmapnotify wm_state s ev).state.embedded
          = s.embedded.eraseP (fun em => em.window == w)
        ∧ (event_handle_unmapnotify wm_state s ev).state.clients = s.clients
        ∧ ((s.embedded.map (fun em => em.window)).Nodup →
            w ∉ (event_handle_unmapnotify wm_state s ev).state.embedded.map
              (fun em => em.window))) := by
  refine ⟨?_, ?_, ?_⟩
  · intro ev c hw hc
    subst hw
    simp [event_handle_destroynotify, hc, client_unmanage]
  · intro ev hw hc
    subst hw
    simp only [event_handle_destroynotify, hc]
    exact ⟨embedded_remove_eq_eraseP _ _, trivial, embedded_remove_not_mem _ _⟩
  · intro ev hw hc
    subst hw
    simp only [event_handle_unmapnotify, hc]
    exact ⟨embedded_remove_eq_eraseP _ _, trivial, embedded_remove_not_mem _ _⟩

/-- C10, an instance: destroying window 7, the second of three embedded
windows, leaves the first and the third in order. -/
theorem destroynotify_removal_witness :
    (event_handle_destroynotify sample_embedded
        { response_type := 17, event := 1, window := 7 }).state.embedded
      = [{ window := 5, info := 0 }, { window := 9, info := 2 }]
    ∧ 7 ∉ (event_handle_destroynotify sample_embedded
        { response_type := 17, event := 1, window := 7 }).state.embedded.map
          (fun em => em.window) :=
  have h := (destroynotify_removal 1 sample_embedded 7).2.1
    { response_type := 17, event := 1, window := 7 } rfl (by decide)
  ⟨h.1.trans (by decide), h.2.2 (by decide)⟩

theorem configurenotify_loop_all_restart (ev : xcb_configure_notify_event_t) :
    ∀ (screens : List (Option xcb_screen_t)), ∀ a ∈ configurenotify_loop ev screens,
      a = Action.awesome_restart
  | [], a, ha => by simp [configurenotify_loop] at ha
  | none :: rest, a, ha => by
    rw [configurenotify_loop] at ha
    exact configurenotify_loop_all_restart ev rest a ha
  | some screen :: rest, a, ha => by
    rw [configurenotify_loop] at ha
    split at ha
    · rcases List.mem_cons.1 ha with h | h
      · exact h
      · exact configurenotify_loop_all_restart ev rest a h
    · exact configurenotify_loop_all_restart ev rest a ha

theorem configurenotify_loop_mem_iff (ev : xcb_configure_notify_event_t) :
    ∀ (screens : List (Option xcb_screen_t)),
      Action.awesome_restart ∈ configurenotify_loop ev screens ↔
        ∃ screen, some screen ∈ screens ∧ ev.window = screen.root
          ∧ (ev.width ≠ screen.width_in_pixels ∨ ev.height ≠ screen.height_in_pixels)
  | [] => by simp [configurenotify_loop]
  | none :: rest => by
    rw [configurenotify_loop, configurenotify_loop_mem_iff ev rest]
    simp
  | some screen :: rest => by
    rw [configurenotify_loop]
    by_cases h : ev.window = screen.root
        ∧ (ev.width ≠ screen.width_in_pixels ∨ ev.height ≠ screen.height_in_pixels)
    · rw [if_pos h]
      constructor
      · intro _
        exact ⟨screen, List.mem_cons_self _ _, h⟩
      · intro _
        exact List.mem_cons_self _ _
    · rw [if_neg h, configurenotify_loop_mem_iff ev rest]
      constructor
      · rintro ⟨sc, hsc, hc⟩
        exact ⟨sc, List.mem_cons_of_mem _ hsc, hc⟩
      · rintro ⟨sc, hsc, hc⟩
        rcases List.mem_cons.1 hsc with e | hmem
        · cases e
          exact absurd hc h
        · exact ⟨sc, hmem, hc⟩

theorem configurenotify_loop_no_root (ev : xcb_configure_notify_event_t)
    (screens : List (Option xcb_screen_t))
    (h : ∀ screen, some screen ∈ screens → ev.window ≠ screen.root) :
    configurenotify_loop ev screens = [] := by
  cases hl : configurenotify_loop ev screens with
  | nil => rfl
  | cons a rest =>
    have ha : a ∈ configurenotify_loop ev screens := by rw [hl]; exact List.mem_cons_self _ _
    have hr := configurenotify_loop_all_restart ev screens a ha
    rw [hr] at ha
    obtain ⟨sc, hsc, hroot, _⟩ := (configurenotify_loop_mem_iff ev screens).1 ha
    exact absurd hroot (h sc hsc)

theorem configurenotify_loop_once (ev : xcb_configure_notify_event_t) :
    ∀ (screens : List (Option xcb_screen_t)),
      ((screens.filterMap id).map (fun sc => sc.root)).Nodup →
      (∃ screen, some screen ∈ screens ∧ ev.window = screen.root
          ∧ (ev.width ≠ screen.width_in_pixels ∨ ev.height ≠ screen.height_in_pixels)) →
      configurenotify_loop ev screens = [Action.awesome_restart]
  | [], _, h => by
    obtain ⟨sc, hsc, _⟩ := h
    simp at hsc
  | none :: rest, hnd, h => by
    rw [configurenotify_loop]
    apply configurenotify_loop_once ev rest
    · simpa using hnd
    · obtain ⟨sc, hsc, hc⟩ := h
      rcases List.mem_cons.1 hsc with e | hmem
      · cases e
      · exact ⟨sc, hmem, hc⟩
  | some screen :: rest, hnd, h => by
    rw [configurenotify_loop]
    simp only [List.filterMap_cons, id, List.map_cons, List.nodup_cons, List.mem_map,
      List.mem_filterMap, not_exists, not_and] at hnd
    by_cases hc : ev.window = screen.root
        ∧ (ev.width ≠ screen.width_in_pixels ∨ ev.height ≠ screen.height_in_pixels)
    · rw [if_pos hc, configurenotify_loop_no_root ev rest]
      intro sc hsc hroot
      exact hnd.1 sc ⟨some sc, hsc, rfl⟩ (hroot.symm.trans hc.1)
    · rw [if_neg hc]
      apply configurenotify_loop_once ev rest hnd.2
      obtain ⟨sc, hsc, hcond⟩ := h
      rcases List.mem_cons.1 hsc with e | hmem
      · cases e
        exact absurd hcond hc
      · exact ⟨sc, hmem, hcond⟩

/-- C11: `event_handle_configurenotify` invokes the restart path if and only if
some screen has its root equal to the event's window and a cached width or
height different from the reported one; with distinct root windows per screen
it is then invoked exactly once, and it is never invoked for an event on a
window that is no screen's root or for one that reports the cached size. -/
theorem configurenotify_restart (screens : List (Option xcb_screen_t)) (s : State)
    (ev : xcb_configure_notify_event_t) :
    (event_handle_configurenotify screens s ev).ret = 0
    ∧ (event_handle_configurenotify screens s ev).state = s
    ∧ (Action.awesome_restart ∈ (event_handle_configurenotify screens s ev).trace ↔
        ∃ screen, some screen ∈ screens ∧ ev.window = screen.root
          ∧ (ev.width ≠ screen.width_in_pixels ∨ ev.height ≠ screen.height_in_pixels))
    ∧ (((screens.filterMap id).map (fun sc => sc.root)).Nodup →
        (∃ screen, some screen ∈ screens ∧ ev.window = screen.root
          ∧ (ev.width ≠ screen.width_in_pixels ∨ ev.height ≠ screen.height_in_pixels)) →
        (event_handle_configurenotify screens s ev).trace = [Action.awesome_restart])
    ∧ ((∀ screen, some screen ∈ screens → ev.window ≠ screen.root) →
        (event_handle_configurenotify screens s ev).trace = [])
    ∧ ((∀ screen, some screen ∈ screens → ev.window = screen.root →
          ev.width = screen.width_in_pixels ∧ ev.height = screen.height_in_pixels) →
        (event_handle_configurenotify screens s ev).trace = []) := by
  refine ⟨rfl, rfl, configurenotify_loop_mem_iff ev screens,
    configurenotify_loop_once ev screens, configurenotify_loop_no_root ev screens, ?_⟩
  intro h
  show configurenotify_loop ev screens = []
  cases hl : configurenotify_loop ev screens with
  | nil => rfl
  | cons a rest =>
    have ha : a ∈ configurenotify_loop ev screens := by rw [hl]; exact List.mem_cons_self _ _
    rw [configurenotify_loop_all_restart ev screens a ha] at ha
    obtain ⟨sc, hsc, hroot, hne⟩ := (configurenotify_loop_mem_iff ev screens).1 ha
    obtain ⟨hw, hh⟩ := h sc hsc hroot
    rcases hne with hne | hne
    · exact absurd hw hne
    · exact absurd hh hne

/-- C11, the scenario: a configure notification on root window 1 reporting width
1920 against a cached width of 1280 invokes the restart exactly once. -/
theorem configurenotify_restart_witness :
    (event_handle_configurenotify
        [some { root := 1, width_in_pixels := 1280, height_in_pixels := 800 }] sample_state
        { response_type := 22, event := 1, window := 1, x := 0, y := 0, width := 1920,
          height := 800, border_width := 0 }).trace = [Action.awesome_restart] :=
  (configurenotify_restart
      [some { root := 1, width_in_pixels := 1280, height_in_pixels := 800 }] sample_state
      { response_type := 22, event := 1, window := 1, x := 0, y := 0, width := 1920,
        height := 800, border_width := 0 }).2.2.2.1 (by decide)
    ⟨{ root := 1, width_in_pixels := 1280, height_in_pixels := 800 }, by decide, rfl,
      Or.inl (by decide)⟩

/-- C12 as stated fails: a message of the window-state-change type that the
startup-notification processor does not consume is handed to
`ewmh_process_client_message` as well, after the state-change handling. -/
theorem clientmessage_change_state_reaches_ewmh :
    (event_handle_clientmessage sample_atoms false 0 0 0 sample_state
        { response_type := 33, format := 32, window := 256, type := 300,
          data32 := [XCB_WM_STATE_ICONIC, 0, 0, 0, 0] }).trace
      = [Action.sn_process_event 256 300, Action.set_minimized 256 true,
         Action.ewmh_process_client_message 256 300]
    ∧ (300 : Nat) = sample_atoms.WM_CHANGE_STATE := by
  decide

/-- C12, amended: if the startup-notification processor consumes the message
nothing else runs and the handler returns 0; otherwise the first matching
branch among window-state-change, embedding protocol and system tray is taken,
the embedding and system-tray handlers give the returned status, and
`ewmh_process_client_message` is invoked exactly for the messages of the
window-state-change type and for those matching none of the three atoms. -/
theorem clientmessage_routing (atoms : atoms_t) (sn_consumes : Bool)
    (xembed_ret systray_ret ewmh_ret : Int) (s : State) (ev : xcb_client_message_event_t) :
    (sn_consumes = true →
        (event_handle_clientmessage atoms sn_consumes xembed_ret systray_ret ewmh_ret s ev)
          = { ret := 0, state := s, trace := [Action.sn_process_event ev.window ev.type] })
    ∧ (sn_consumes = false →
        (ev.type = atoms.WM_CHANGE_STATE →
          (event_handle_clientmessage atoms sn_consumes xembed_ret systray_ret ewmh_ret
              s ev).ret = ewmh_ret
          ∧ Action.xembed_process_client_message ev.window
              ∉ (event_handle_clientmessage atoms sn_consumes xembed_ret systray_ret ewmh_ret
                  s ev).trace
          ∧ Action.systray_process_client_message ev.window
              ∉ (event_handle_clientmessage atoms sn_consumes xembed_ret systray_ret ewmh_ret
                  s ev).trace)
        ∧ (ev.type ≠ atoms.WM_CHANGE_STATE → ev.type = atoms._XEMBED →
          (event_handle_clientmessage atoms sn_consumes xembed_ret systray_ret ewmh_ret s ev)
            = { ret := xembed_ret, state := s,
                trace := [Action.sn_process_event ev.window ev.type,
                          Action.xembed_process_client_message ev.window] })
        ∧ (ev.type ≠ atoms.WM_CHANGE_STATE → ev.type ≠ atoms._XEMBED →
            ev.type = atoms._NET_SYSTEM_TRAY_OPCODE →
          (event_handle_clientmessage atoms sn_consumes xembed_ret systray_ret ewmh_ret s ev)
            = { ret := systray_ret, state := s,
                trace := [Action.sn_process_event ev.window ev.type,
                          Action.systray_process_client_message ev.window] })
        ∧ (ev.type ≠ atoms.WM_CHANGE_STATE → ev.type ≠ atoms._XEMBED →
            ev.type ≠ atoms._NET_SYSTEM_TRAY_OPCODE →
          (event_handle_clientmessage atoms sn_consumes xembed_ret systray_ret ewmh_ret s ev)
            = { ret := ewmh_ret, state := s,
                trace := [Action.sn_process_event ev.window ev.type,
                          Action.ewmh_process_client_message ev.window ev.type] })
        ∧ (Action.ewmh_process_client_message ev.window ev.type
              ∈ (event_handle_clientmessage atoms sn_consumes xembed_ret systray_ret ewmh_ret
                  s ev).trace ↔
            (ev.type = atoms.WM_CHANGE_STATE
              ∨ (ev.type ≠ atoms._XEMBED ∧ ev.type ≠ atoms._NET_SYSTEM_TRAY_OPCODE)))) := by
  constructor
  · intro hsn
    simp [event_handle_clientmessage, hsn]
  · intro hsn
    unfold event_handle_clientmessage
    simp only [hsn, Bool.false_eq_true, if_false]
    by_cases h1 : ev.type = atoms.WM_CHANGE_STATE
    · simp only [if_pos h1]
      cases hc : client_getbywin s ev.window with
      | none => simp [h1]
      | some c =>
        by_cases hf : ev.format = 32 ∧ ev.data32.getD 0 0 = XCB_WM_STATE_ICONIC
        · simp only [if_pos hf]
          simp [h1]
        · simp only [if_neg hf]
          simp [h1]
    · simp only [if_neg h1]
      by_cases h2 : ev.type = atoms._XEMBED
      · have h1' := h1
        rw [h2] at h1'
        simp [h2, h1']
      · simp only [if_neg h2]
        by_cases h3 : ev.type = atoms._NET_SYSTEM_TRAY_OPCODE
        · have h1' := h1
          have h2' := h2
          rw [h3] at h1' h2'
          simp [h3, h1', h2']
        · simp [h1, h2, h3]

/-- C12, instances: a consumed message stops at the startup-notification
processor, and a system-tray message is routed to the system-tray handler
without reaching `ewmh_process_client_message`. -/
theorem clientmessage_routing_witness :
    (event_handle_clientmessage sample_atoms true 0 0 0 sample_state
        { response_type := 33, format := 32, window := 256, type := 300,
          data32 := [3, 0, 0, 0, 0] }).trace = [Action.sn_process_event 256 300]
    ∧ (event_handle_clientmessage sample_atoms false 0 7 0 sample_state
        { response_type := 33, format := 32, window := 256, type := 302,
          data32 := [0, 0, 0, 0, 0] })
      = { ret := 7, state := sample_state,
          trace := [Action.sn_process_event 256 302,
                    Action.systray_process_client_message 256] } :=
  ⟨congrArg Outcome.trace
      ((clientmessage_routing sample_atoms true 0 0 0 sample_state
        { response_type := 33, format := 32, window := 256, type := 300,
          data32 := [3, 0, 0, 0, 0] }).1 rfl),
   ((clientmessage_routing sample_atoms false 0 7 0 sample_state
        { response_type := 33, format := 32, window := 256, type := 302,
          data32 := [0, 0, 0, 0, 0] }).2 rfl).2.2.1 (by decide) (by decide) rfl⟩

theorem client_getbywin_window (s : State) (w : Nat) (c : client_t)
    (hc : client_getbywin s w = some c) : c.window = w := by
  unfold client_getbywin at hc
  have h := List.find?_some hc
  simpa using h

theorem find_client_update (f : client_t → client_t) (w : Nat)
    (hf : ∀ c, (f c).window = c.window) :
    ∀ (l : List client_t) (c : client_t),
      l.find? (fun c => c.window == w) = some c →
      (client_update f w l).find? (fun c => c.window == w) = some (f c)
  | [], c, h => by simp at h
  | d :: rest, c, h => by
    by_cases hd : d.window = w
    · simp only [List.find?_cons, hd, beq_self_eq_true, Option.some.injEq] at h
      subst h
      simp [client_update, hd, hf]
    · have hd' : (d.window == w) = false := by simpa using hd
      simp only [List.find?_cons, hd'] at h
      simp only [client_update, if_neg hd, List.find?_cons, hd']
      exact find_client_update f w hf rest c h

theorem configurerequest_geometry_congr (c d : client_t) (ev : xcb_configure_request_event_t)
    (h : c.geometry = d.geometry) :
    configurerequest_geometry c ev = configurerequest_geometry d ev := by
  rw [configurerequest_geometry_eq, configurerequest_geometry_eq, h]

theorem configurerequest_geometry_idem (c : client_t) (ev : xcb_configure_request_event_t) :
    configurerequest_geometry { c with geometry := configurerequest_geometry c ev } ev
      = configurerequest_geometry c ev := by
  rw [configurerequest_geometry_eq { c with geometry := configurerequest_geometry c ev } ev,
    configurerequest_geometry_eq c ev]
  by_cases b0 : ev.value_mask.testBit 0 <;> by_cases b1 : ev.value_mask.testBit 1 <;>
    by_cases b2 : ev.value_mask.testBit 2 <;> by_cases b3 : ev.value_mask.testBit 3 <;>
    simp [b0, b1, b2, b3]

theorem configurerequest_client_after (policy : client_t → area_t → Bool × area_t)
    (hp : ∀ c g, (policy c g).2 = g)
    (s : State) (ev : xcb_configure_request_event_t) (c : client_t)
    (hc : client_getbywin s ev.window = some c) :
    ∃ c', client_getbywin (event_handle_configurerequest policy s ev).state ev.window = some c'
      ∧ c'.geometry = configurerequest_geometry c ev := by
  have hw := client_getbywin_window s ev.window c hc
  unfold client_getbywin at hc
  simp only [event_handle_configurerequest, client_getbywin, hc, hp]
  by_cases hb : ev.value_mask &&& XCB_CONFIG_WINDOW_BORDER_WIDTH ≠ 0
  · simp only [if_pos hb, lua_pop, luaA_object_push, lua_push, ewindow_set_border_width, hw]
    have h1 := find_client_update
      (fun d : client_t => { d with border_width := ev.border_width }) ev.window
      (fun _ => rfl) _ _ hc
    have h2 := find_client_update
      (fun d : client_t => { d with geometry := configurerequest_geometry c ev }) ev.window
      (fun _ => rfl) _ _ h1
    exact ⟨_, h2, rfl⟩
  · simp only [if_neg hb, lua_pop, luaA_object_push, lua_push, hw]
    have h2 := find_client_update
      (fun d : client_t => { d with geometry := configurerequest_geometry c ev }) ev.window
      (fun _ => rfl) _ _ hc
    exact ⟨_, h2, rfl⟩

/-- C13: overlaying the masked fields of a configure request onto a geometry and
then overlaying the same request onto the result gives the same geometry as
overlaying once; hence, with a policy layer that applies the merged geometry,
handling the same request twice on a managed client leaves the client with the
same geometry after the second handling as after the first. -/
theorem configurerequest_idempotent (policy : client_t → area_t → Bool × area_t)
    (s : State) (ev : xcb_configure_request_event_t) (c : client_t) :
    configurerequest_geometry { c with geometry := configurerequest_geometry c ev } ev
      = configurerequest_geometry c ev
    ∧ ((∀ d g, (policy d g).2 = g) → client_getbywin s ev.window = some c →
        ∃ c1 c2,
          client_getbywin (event_handle_configurerequest policy s ev).state ev.window = some c1
          ∧ client_getbywin (event_handle_configurerequest policy
              (event_handle_configurerequest policy s ev).state ev).state ev.window = some c2
          ∧ c1.geometry = configurerequest_geometry c ev
          ∧ c2.geometry = c1.geometry
          ∧ Action.window_set_geometry c1.window c1.geometry
              ∈ (event_handle_configurerequest policy
                  (event_handle_configurerequest policy s ev).state ev).trace) := by
  refine ⟨configurerequest_geometry_idem c ev, ?_⟩
  intro hp hc
  obtain ⟨c1, hc1, hg1⟩ := configurerequest_client_after policy hp s ev c hc
  obtain ⟨c2, hc2, hg2⟩ := configurerequest_client_after policy hp _ ev c1 hc1
  have hidem : configurerequest_geometry c1 ev = c1.geometry := by
    rw [configurerequest_geometry_congr c1
      { c with geometry := configurerequest_geometry c ev } ev hg1,
      configurerequest_geometry_idem, hg1]
  refine ⟨c1, c2, hc1, hc2, hg1, hg2.trans hidem, ?_⟩
  obtain ⟨_, pre, post, ht, _, _⟩ := configurerequest_client_trace policy _ ev c1 hc1
  rw [ht, hidem]
  simp

/-- C13, the scenario: the request {WIDTH, HEIGHT} = 1024 x 768 handled twice on
the client at {10, 10, 800, 600} leaves {10, 10, 1024, 768} both times. -/
theorem configurerequest_idempotent_witness :
    ∃ c1 c2,
      client_getbywin (event_handle_configurerequest policy_apply sample_state
        { response_type := 23, stack_mode := 0, parent := 1, window := 256, sibling := 0,
          x := 0, y := 0, width := 1024, height := 768, border_width := 0,
          value_mask := 12 }).state 256 = some c1
      ∧ client_getbywin (event_handle_configurerequest policy_apply
          (event_handle_configurerequest policy_apply sample_state
            { response_type := 23, stack_mode := 0, parent := 1, window := 256, sibling := 0,
              x := 0, y := 0, width := 1024, height := 768, border_width := 0,
              value_mask := 12 }).state
          { response_type := 23, stack_mode := 0, parent := 1, window := 256, sibling := 0,
            x := 0, y := 0, width := 1024, height := 768, border_width := 0,
            value_mask := 12 }).state 256 = some c2
      ∧ c2.geometry = c1.geometry :=
  have h := (configurerequest_idempotent policy_apply sample_state
    { response_type := 23, stack_mode := 0, parent := 1, window := 256, sibling := 0,
      x := 0, y := 0, width := 1024, height := 768, border_width := 0,
      value_mask := 12 } sample_client).2 (fun _ _ => rfl) (by decide)
  match h with
  | ⟨c1, c2, h1, h2, _, h4, _⟩ => ⟨c1, c2, h1, h2, h4⟩

theorem config_win_fold (vm : Nat) :
    ∀ (l : List (Nat × Int)) (acc : Nat × List Nat),
      (l.foldl (fun acc p => config_win_step vm (2 ^ p.1) p.2 acc) acc).2
          = acc.2 ++ (l.filter (fun p => vm.testBit p.1)).map (fun p => to_uint32 p.2)
      ∧ ∀ j, (l.foldl (fun acc p => config_win_step vm (2 ^ p.1) p.2 acc) acc).1.testBit j
          = (acc.1.testBit j || (decide (j ∈ l.map Prod.fst) && vm.testBit j))
  | [], acc => by simp
  | p :: rest, acc => by
    obtain ⟨ih1, ih2⟩ := config_win_fold vm rest (config_win_step vm (2 ^ p.1) p.2 acc)
    rw [List.foldl_cons, ih1]
    refine ⟨?_, ?_⟩
    · by_cases hb : vm.testBit p.1 = true
      · have hl := (land_two_pow_ne_zero vm p.1).2 hb
        simp [config_win_step, hl, hb, List.filter_cons]
      · have hl : ¬ (vm &&& 2 ^ p.1 ≠ 0) := fun h => hb ((land_two_pow_ne_zero vm p.1).1 h)
        simp [config_win_step, hl, hb, List.filter_cons]
    · intro j
      rw [ih2 j]
      by_cases hb : vm.testBit p.1 = true
      · have hl := (land_two_pow_ne_zero vm p.1).2 hb
        simp only [config_win_step, if_pos hl, Nat.testBit_or, Nat.testBit_two_pow,
          List.map_cons, List.mem_cons]
        by_cases hj : p.1 = j
        · subst hj
          simp [hb]
        · have hj' : ¬ j = p.1 := fun e => hj e.symm
          simp [hj, hj']
      · have hl : ¬ (vm &&& 2 ^ p.1 ≠ 0) := fun h => hb ((land_two_pow_ne_zero vm p.1).1 h)
        simp only [config_win_step, if_neg hl, List.map_cons, List.mem_cons]
        by_cases hj : p.1 = j
        · subst hj
          simp [hb]
        · have hj' : ¬ j = p.1 := fun e => hj e.symm
          simp [hj']

theorem configure_window_eq_fold (ev : xcb_configure_request_event_t) :
    event_handle_configurerequest_configure_window ev =
      Action.xcb_configure_window ev.window
        ((config_win_fields ev).foldl
          (fun acc p => config_win_step ev.value_mask (2 ^ p.1) p.2 acc) (0, [])).1
        ((config_win_fields ev).foldl
          (fun acc p => config_win_step ev.value_mask (2 ^ p.1) p.2 acc) (0, [])).2 := by
  rfl

theorem range_filter_mask (mask vm : Nat)
    (hmask : ∀ i, mask.testBit i = true ↔ (i < 7 ∧ vm.testBit i = true)) :
    (List.range 16).filter (fun i => mask.testBit i)
      = (List.range 7).filter (fun i => vm.testBit i) := by
  have hsplit : List.range 16 = List.range 7 ++ [7, 8, 9, 10, 11, 12, 13, 14, 15] := by decide
  have hlow : (List.range 7).filter (fun i => mask.testBit i)
      = (List.range 7).filter (fun i => vm.testBit i) := by
    apply List.filter_congr
    intro i hi
    have hi7 : i < 7 := List.mem_range.1 hi
    cases hv : vm.testBit i with
    | true => exact (hmask i).2 ⟨hi7, hv⟩
    | false =>
      cases hm : mask.testBit i with
      | false => rfl
      | true => rw [((hmask i).1 hm).2] at hv; exact absurd hv (by decide)
  have hhigh : [7, 8, 9, 10, 11, 12, 13, 14, 15].filter (fun i => mask.testBit i) = [] := by
    rw [List.filter_eq_nil_iff]
    intro i hi hm
    have hlt := ((hmask i).1 hm).1
    simp only [List.mem_cons, List.mem_singleton, List.not_mem_nil, or_false] at hi
    omega
  rw [hsplit, List.filter_append, hlow, hhigh, List.append_nil]

/-- C14: for a configure request on a window that is not a client the handler
sends one configure call whose mask holds exactly the bits 0 to 6 (X, Y, WIDTH,
HEIGHT, BORDER_WIDTH, SIBLING, STACK_MODE) present in the request's value mask
and whose value list holds the request's fields for those bits, converted to
32-bit words, in ascending bit order; the number of values is the number of
bits set in the sent mask and is at most 7. -/
theorem configurerequest_passthrough (policy : client_t → area_t → Bool × area_t)
    (s : State) (ev : xcb_configure_request_event_t)
    (hc : client_getbywin s ev.window = none) :
    ∃ mask vals,
      event_handle_configurerequest policy s ev
        = { ret := 0, state := s, trace := [Action.xcb_configure_window ev.window mask vals] }
      ∧ (∀ i, mask.testBit i = true ↔ (i < 7 ∧ ev.value_mask.testBit i = true))
      ∧ vals = ([(0, ev.x), (1, ev.y), ((2 : Nat), (ev.width : Int)), (3, ev.height),
                 (4, ev.border_width), (5, ev.sibling), (6, ev.stack_mode)].filter
                  (fun p => ev.value_mask.testBit p.1)).map (fun p => to_uint32 p.2)
      ∧ vals.length = ((List.range 16).filter (fun i => mask.testBit i)).length
      ∧ vals.length ≤ 7 := by
  obtain ⟨hvals, hbits⟩ := config_win_fold ev.value_mask (config_win_fields ev) (0, [])
  have hmask : ∀ i, ((config_win_fields ev).foldl
      (fun acc p => config_win_step ev.value_mask (2 ^ p.1) p.2 acc) (0, [])).1.testBit i = true
      ↔ (i < 7 ∧ ev.value_mask.testBit i = true) := by
    intro i
    rw [hbits i]
    simp only [config_win_fields, List.map_cons, List.map_nil, Nat.zero_testBit, Bool.false_or,
      Bool.and_eq_true, decide_eq_true_eq, List.mem_cons, List.mem_singleton, List.not_mem_nil,
      or_false]
    constructor
    · rintro ⟨h, hb⟩
      exact ⟨by omega, hb⟩
    · rintro ⟨h, hb⟩
      exact ⟨by omega, hb⟩
  refine ⟨((config_win_fields ev).foldl
      (fun acc p => config_win_step ev.value_mask (2 ^ p.1) p.2 acc) (0, [])).1,
    ((config_win_fields ev).foldl
      (fun acc p => config_win_step ev.value_mask (2 ^ p.1) p.2 acc) (0, [])).2,
    ?_, hmask, ?_, ?_, ?_⟩
  · simp only [event_handle_configurerequest, hc, configure_window_eq_fold]
  · rw [hvals]
    simp [config_win_fields]
  · rw [range_filter_mask _ ev.value_mask hmask, hvals]
    have hfst : List.range 7 = (config_win_fields ev).map Prod.fst := by
      simp [config_win_fields]
      decide
    rw [hfst, List.filter_map]
    simp only [List.nil_append, List.length_map]
    rfl
  · rw [hvals]
    simp only [List.nil_append, List.length_map]
    exact (List.length_filter_le _ _).trans (by simp [config_win_fields])

/-- C14, an instance: a request with mask {X, WIDTH, STACK_MODE} on an unmanaged
window, x = -5, width = 640, stack mode 1, sends one configure call whose three
values are the 32-bit words of -5, 640 and 1. -/
theorem configurerequest_passthrough_witness :
    ∃ mask vals,
      event_handle_configurerequest policy_apply sample_state
          { response_type := 23, stack_mode := 1, parent := 1, window := 512, sibling := 0,
            x := -5, y := 0, width := 640, height := 480, border_width := 2,
            value_mask := 69 }
        = { ret := 0, state := sample_state,
            trace := [Action.xcb_configure_window 512 mask vals] }
      ∧ vals = [4294967291, 640, 1] ∧ vals.length ≤ 7 :=
  match configurerequest_passthrough policy_apply sample_state
      { response_type := 23, stack_mode := 1, parent := 1, window := 512, sibling := 0,
        x := -5, y := 0, width := 640, height := 480, border_width := 2,
        value_mask := 69 } (by decide) with
  | ⟨mask, vals, h1, _, h3, _, h5⟩ => ⟨mask, vals, h1, h3.trans (by decide), h5⟩

theorem rotation_test (rotation : Nat) :
    rotation &&& (XCB_RANDR_ROTATION_ROTATE_90 ||| XCB_RANDR_ROTATION_ROTATE_270) ≠ 0
      ↔ (rotation.testBit 1 = true ∨ rotation.testBit 3 = true) := by
  have h10 : XCB_RANDR_ROTATION_ROTATE_90 ||| XCB_RANDR_ROTATION_ROTATE_270 = 10 := by decide
  rw [h10]
  constructor
  · intro h
    by_contra hb
    simp only [not_or, Bool.not_eq_true] at hb
    apply h
    apply Nat.eq_of_testBit_eq
    intro j
    rw [Nat.testBit_and, Nat.zero_testBit]
    by_cases h1 : j = 1
    · subst h1; simp [hb.1]
    · by_cases h3 : j = 3
      · subst h3; simp [hb.2]
      · have h10j : Nat.testBit 10 j = false := by
          have e : (10 : Nat) = 2 ^ 1 ||| 2 ^ 3 := by decide
          rw [e, Nat.testBit_or, Nat.testBit_two_pow, Nat.testBit_two_pow]
          have h1' : ¬ 1 = j := fun e => h1 e.symm
          have h3' : ¬ 3 = j := fun e => h3 e.symm
          simp [h1', h3']
        simp [h10j]
  · intro hb h
    have t1 := congrArg (fun m => Nat.testBit m 1) h
    have t3 := congrArg (fun m => Nat.testBit m 3) h
    simp only [Nat.testBit_and, Nat.zero_testBit] at t1 t3
    have c1 : Nat.testBit 10 1 = true := by decide
    have c3 : Nat.testBit 10 3 = true := by decide
    rw [c1] at t1
    rw [c3] at t3
    rcases hb with hb | hb
    · rw [hb] at t1; exact absurd t1 (by decide)
    · rw [hb] at t3; exact absurd t3 (by decide)

/-- C15: for every screen-change notification the handler pushes one screen size,
(height, width, mheight, mwidth) when the rotation has the 90-degree or the
270-degree bit set and (width, height, mwidth, mheight) otherwise, and then
invokes the restart exactly once; it returns 0. -/
theorem randr_screen_change (s : State) (ev : xcb_randr_screen_change_notify_event_t) :
    (event_handle_randr_screen_change_notify s ev).ret = 0
    ∧ ((ev.rotation.testBit 1 = true ∨ ev.rotation.testBit 3 = true) →
        (event_handle_randr_screen_change_notify s ev).trace
          = [Action.randr_set_screen_size ev.root ev.height ev.width ev.mheight ev.mwidth,
             Action.awesome_restart])
    ∧ (¬ (ev.rotation.testBit 1 = true ∨ ev.rotation.testBit 3 = true) →
        (event_handle_randr_screen_change_notify s ev).trace
          = [Action.randr_set_screen_size ev.root ev.width ev.height ev.mwidth ev.mheight,
             Action.awesome_restart])
    ∧ (event_handle_randr_screen_change_notify s ev).trace.count Action.awesome_restart = 1 := by
  have hr := rotation_test ev.rotation
  unfold event_handle_randr_screen_change_notify
  by_cases h : ev.rotation.testBit 1 = true ∨ ev.rotation.testBit 3 = true
  · have hl := hr.2 h
    simp only [if_pos hl]
    refine ⟨trivial, fun _ => rfl, fun hn => absurd h hn, ?_⟩
    simp [List.count_cons]
  · have hl : ¬ (ev.rotation &&& (XCB_RANDR_ROTATION_ROTATE_90 ||| XCB_RANDR_ROTATION_ROTATE_270)
        ≠ 0) := fun hx => h (hr.1 hx)
    simp only [if_neg hl]
    refine ⟨trivial, fun hp => absurd hp h, fun _ => rfl, ?_⟩
    simp [List.count_cons]

/-- C15, instances: a 1024 x 768 screen rotated by 90 degrees is pushed as
768 x 1024, and unrotated as 1024 x 768; the restart follows. -/
theorem randr_screen_change_witness :
    (event_handle_randr_screen_change_notify sample_state
        { response_type := 90, rotation := XCB_RANDR_ROTATION_ROTATE_90, root := 1,
          request_window := 1, width := 1024, height := 768, mwidth := 270,
          mheight := 203 }).trace
      = [Action.randr_set_screen_size 1 768 1024 203 270, Action.awesome_restart]
    ∧ (event_handle_randr_screen_change_notify sample_state
        { response_type := 90, rotation := XCB_RANDR_ROTATION_ROTATE_0, root := 1,
          request_window := 1, width := 1024, height := 768, mwidth := 270,
          mheight := 203 }).trace
      = [Action.randr_set_screen_size 1 1024 768 270 203, Action.awesome_restart] :=
  ⟨(randr_screen_change sample_state
      { response_type := 90, rotation := XCB_RANDR_ROTATION_ROTATE_90, root := 1,
        request_window := 1, width := 1024, height := 768, mwidth := 270,
        mheight := 203 }).2.1 (Or.inl (by decide)),
   (randr_screen_change sample_state
      { response_type := 90, rotation := XCB_RANDR_ROTATION_ROTATE_0, root := 1,
        request_window := 1, width := 1024, height := 768, mwidth := 270,
        mheight := 203 }).2.2.1 (by decide)⟩

/-- C16: `event_button_match` holds for a button event and a binding if and only
if the binding's button is the wildcard 0 or equals the event's detail, and the
binding's modifiers are the any-modifier wildcard or equal the event's state;
the modifier comparison is equality, not a subset test: a binding on Shift
alone does not match an event whose state is Shift and Lock. -/
theorem button_match_iff (ev : xcb_button_press_event_t) (b : button_t) :
    (event_button_match ev b = true ↔
      ((b.button = 0 ∨ ev.detail = b.button)
        ∧ (b.modifiers = XCB_BUTTON_MASK_ANY ∨ b.modifiers = ev.state)))
    ∧ event_button_match
        { response_type := 4, detail := 1, event := 256, root_x := 0, root_y := 0, state := 3 }
        { ref := 0, button := 1, modifiers := 1 } = false := by
  refine ⟨?_, by decide⟩
  unfold event_button_match
  simp only [Bool.and_eq_true, Bool.or_eq_true, beq_iff_eq]

/-- C17 as stated fails: a binding given by key code 38 alone (its key symbol 0
means none) and an event with another key code whose symbol resolves to 0: the
symbols are equal and the modifiers are the wildcard, yet there is no match. -/
theorem key_match_zero_symbol_counterexample :
    event_key_match { response_type := 2, detail := 50, event := 256, state := 0 }
        { ref := 0, keycode := 38, keysym := 0, modifiers := XCB_BUTTON_MASK_ANY } 0 = false
    ∧ (((50 : Nat) = 38 ∨ (0 : Nat) = 0)
        ∧ (XCB_BUTTON_MASK_ANY = XCB_BUTTON_MASK_ANY ∨ XCB_BUTTON_MASK_ANY = 0)) := by
  decide

/-- C17, amended: `event_key_match` holds for a key event with resolved symbol s
and a binding if and only if the binding's key code is not 0 and equals the
event's detail, or the binding's key symbol is not 0 and equals s, and the
binding's modifiers are the any-modifier wildcard or equal the event's state. -/
theorem key_match_iff (ev : xcb_key_press_event_t) (k : keyb_t) (keysym : Nat) :
    event_key_match ev k keysym = true ↔
      (((k.keycode ≠ 0 ∧ ev.detail = k.keycode) ∨ (k.keysym ≠ 0 ∧ keysym = k.keysym))
        ∧ (k.modifiers = XCB_BUTTON_MASK_ANY ∨ k.modifiers = ev.state)) := by
  unfold event_key_match
  simp only [Bool.and_eq_true, Bool.or_eq_true, beq_iff_eq, bne_iff_ne, ne_eq]

/-- C16, an instance: the wildcard binding matches a press of button 1 with
Shift held. -/
theorem button_match_iff_witness :
    event_button_match
      { response_type := 4, detail := 1, event := 256, root_x := 0, root_y := 0, state := 1 }
      sample_b2 = true :=
  ((button_match_iff
      { response_type := 4, detail := 1, event := 256, root_x := 0, root_y := 0, state := 1 }
      sample_b2).1).2 ⟨Or.inl rfl, Or.inl rfl⟩

/-- C17, an instance: the binding on key symbol 97 with any modifiers matches an
event whose key code resolves to that symbol. -/
theorem key_match_iff_witness :
    event_key_match { response_type := 2, detail := 38, event := 256, state := 4 }
      sample_k2 97 = true :=
  (key_match_iff { response_type := 2, detail := 38, event := 256, state := 4 }
      sample_k2 97).2 ⟨Or.inr ⟨by decide, rfl⟩, Or.inl rfl⟩

/-- C18 as stated fails: for a press of button 1 on the client holding [b1, b2]
each emission is made on the binding object, b2 then b1, and its one argument
is the client's window object; no emission is made on the window object. -/
theorem binding_dispatch_target_counterexample :
    (event_handle_button (fun _ _ => Except.ok LuaValue.nil) sample_two
        { response_type := 4, detail := 1, event := 256, root_x := 0, root_y := 0,
          state := 0 }).trace
      = [Action.emit_signal (LuaValue.button sample_b2) "press"
           [LuaValue.window { window := 256, buttons := [sample_b1, sample_b2],
                              keys := [sample_k1, sample_k2] }],
         Action.emit_signal (LuaValue.button sample_b1) "press"
           [LuaValue.window { window := 256, buttons := [sample_b1, sample_b2],
                              keys := [sample_k1, sample_k2] }]] := by
  decide

/-- C18, amended: with no grab owner of its class, for a press or release event
whose window resolves to an entity, every call the handler makes is a signal
emitted on a matching binding object of the entity's collection, and carries
the resolved entity as its single argument. -/
theorem binding_dispatch_target
    (call : LuaValue → List LuaValue → Except LuaValue LuaValue)
    (handlekpress : xcb_key_press_event_t → Option (LuaValue × LuaValue × LuaValue))
    (keyresolv_get_keysym : Nat → Nat → Nat) (s : State) (window : window_t) :
    (∀ ev : xcb_button_press_event_t, s.mousegrabber = none →
        window_getbywin s ev.event = some window →
        (ev.response_type = XCB_BUTTON_PRESS ∨ ev.response_type = XCB_BUTTON_RELEASE) →
        ∀ a ∈ (event_handle_button call s ev).trace,
          ∃ b ∈ window.buttons, event_button_match ev b = true
            ∧ a = Action.emit_signal (LuaValue.button b)
                (if ev.response_type = XCB_BUTTON_PRESS then "press" else "release")
                [LuaValue.window window])
    ∧ (∀ ev : xcb_key_press_event_t, s.keygrabber = none →
        window_getbywin s ev.event = some window →
        (ev.response_type = XCB_KEY_PRESS ∨ ev.response_type = XCB_KEY_RELEASE) →
        ∀ a ∈ (event_handle_key call handlekpress keyresolv_get_keysym s ev).trace,
          ∃ k ∈ window.keys, event_key_match ev k (keyresolv_get_keysym ev.detail 0) = true
            ∧ a = Action.emit_signal (LuaValue.key k)
                (if ev.response_type = XCB_KEY_PRESS then "press" else "release")
                [LuaValue.window window]) := by
  constructor
  · intro ev hg hw hrt a ha
    have hname : (ev.response_type = XCB_BUTTON_PRESS
          ∧ (if ev.response_type = XCB_BUTTON_PRESS then "press" else "release") = "press")
        ∨ (ev.response_type = XCB_BUTTON_RELEASE
          ∧ (if ev.response_type = XCB_BUTTON_PRESS then "press" else "release") = "release") := by
      rcases hrt with h | h
      · exact Or.inl ⟨h, by rw [if_pos h]⟩
      · exact Or.inr ⟨h, by rw [h]; decide⟩
    rw [event_handle_button_ungrabbed call s ev window _ hg hw hname] at ha
    simp only [List.mem_map, List.mem_reverse, List.mem_filter] at ha
    obtain ⟨o, ⟨b, ⟨hb, hm⟩, rfl⟩, rfl⟩ := ha
    exact ⟨b, hb, hm, rfl⟩
  · intro ev hg hw hrt a ha
    have hname : (ev.response_type = XCB_KEY_PRESS
          ∧ (if ev.response_type = XCB_KEY_PRESS then "press" else "release") = "press")
        ∨ (ev.response_type = XCB_KEY_RELEASE
          ∧ (if ev.response_type = XCB_KEY_PRESS then "press" else "release") = "release") := by
      rcases hrt with h | h
      · exact Or.inl ⟨h, by rw [if_pos h]⟩
      · exact Or.inr ⟨h, by rw [h]; decide⟩
    rw [event_handle_key_ungrabbed call handlekpress keyresolv_get_keysym s ev window _
      hg hw hname] at ha
    simp only [List.mem_map, List.mem_reverse, List.mem_filter] at ha
    obtain ⟨o, ⟨k, ⟨hk, hm⟩, rfl⟩, rfl⟩ := ha
    exact ⟨k, hk, hm, rfl⟩

/-- C18, an instance: the emission found in the trace of a press of button 1 on
the client holding [b1, b2] is made on a matching binding with the client's
window object as argument. -/
theorem binding_dispatch_target_witness :
    ∃ b ∈ [sample_b1, sample_b2],
      event_button_match
        { response_type := 4, detail := 1, event := 256, root_x := 0, root_y := 0, state := 0 }
        b = true
      ∧ Action.emit_signal (LuaValue.button sample_b2) "press"
          [LuaValue.window { window := 256, buttons := [sample_b1, sample_b2],
                             keys := [sample_k1, sample_k2] }]
        = Action.emit_signal (LuaValue.button b) "press"
          [LuaValue.window { window := 256, buttons := [sample_b1, sample_b2],
                             keys := [sample_k1, sample_k2] }] :=
  (binding_dispatch_target (fun _ _ => Except.ok LuaValue.nil) (fun _ => none) (fun _ _ => 0)
      sample_two
      { window := 256, buttons := [sample_b1, sample_b2], keys := [sample_k1, sample_k2] }).1
    { response_type := 4, detail := 1, event := 256, root_x := 0, root_y := 0, state := 0 }
    rfl (by decide) (Or.inl rfl)
    (Action.emit_signal (LuaValue.button sample_b2) "press"
      [LuaValue.window { window := 256, buttons := [sample_b1, sample_b2],
                         keys := [sample_k1, sample_k2] }])
    (by decide)

theorem client_update_windows (f : client_t → client_t) (w : Nat)
    (hf : ∀ c, (f c).window = c.window) :
    ∀ l : List client_t,
      (client_update f w l).map (fun c => c.window) = l.map (fun c => c.window)
  | [] => rfl
  | c :: rest => by
    by_cases h : c.window = w
    · simp [client_update, h, hf]
    · simp [client_update, h, client_update_windows f w hf rest]

theorem client_array_remove_subset (w : Nat) :
    ∀ (l : List client_t) (v : Nat),
      v ∈ (client_array_remove w l).map (fun c => c.window) → v ∈ l.map (fun c => c.window)
  | [], v, h => by simp [client_array_remove] at h
  | c :: rest, v, h => by
    by_cases hc : c.window = w
    · simp only [client_array_remove, if_pos hc] at h
      exact List.mem_cons_of_mem _ h
    · simp only [client_array_remove, if_neg hc, List.map_cons, List.mem_cons] at h
      rcases h with h | h
      · rw [h]; exact List.mem_cons_self _ _
      · exact List.mem_cons_of_mem _ (client_array_remove_subset w rest v h)

theorem embedded_remove_subset (w : Nat) :
    ∀ (l : List xembed_window_t) (v : Nat),
      v ∈ (embedded_remove w l).map (fun em => em.window) → v ∈ l.map (fun em => em.window)
  | [], v, h => by simp [embedded_remove] at h
  | em :: rest, v, h => by
    by_cases hc : em.window = w
    · simp only [embedded_remove, if_pos hc] at h
      exact List.mem_cons_of_mem _ h
    · simp only [embedded_remove, if_neg hc, List.map_cons, List.mem_cons] at h
      rcases h with h | h
      · rw [h]; exact List.mem_cons_self _ _
      · exact List.mem_cons_of_mem _ (embedded_remove_subset w rest v h)

theorem xembed_getbywin_none (l : List xembed_window_t) (w : Nat)
    (h : xembed_getbywin l w = none) : w ∉ l.map (fun em => em.window) := by
  unfold xembed_getbywin at h
  rw [List.find?_eq_none] at h
  intro hm
  obtain ⟨em, hem, rfl⟩ := List.mem_map.1 hm
  exact h em hem (by simp)

theorem disjoint_tables_unmanage (s : State) (c : client_t) (h : disjoint_tables s) :
    disjoint_tables (client_unmanage s c) := by
  intro w hw
  exact h w (client_array_remove_subset c.window s.clients w hw)

theorem disjoint_tables_embedded_remove (s : State) (w : Nat) (h : disjoint_tables s) :
    disjoint_tables { s with embedded := embedded_remove w s.embedded } := by
  intro v hv hm
  exact h v hv (embedded_remove_subset w s.embedded v hm)

theorem maprequest_embedded_trace (wa_r : Option xcb_get_window_attributes_reply_t)
    (geom_r : Option xcb_get_geometry_reply_t) (ewindow_isvisible : client_t → Bool)
    (s : State) (ev : xcb_map_request_event_t)
    (hem : (xembed_getbywin s.embedded ev.window).isSome = true) :
    (event_handle_maprequest wa_r geom_r ewindow_isvisible s ev).state = s
    ∧ (event_handle_maprequest wa_r geom_r ewindow_isvisible s ev).trace.filter
        Action.is_client_manage = []
    ∧ (∀ wa, wa_r = some wa → wa.override_redirect = false →
        (event_handle_maprequest wa_r geom_r ewindow_isvisible s ev).trace
          = [Action.get_window_attributes ev.window, Action.map_window ev.window,
             Action.xembed_window_activate ev.window]) := by
  unfold event_handle_maprequest
  cases wa_r with
  | none => simp [Action.is_client_manage]
  | some wa =>
    cases hor : wa.override_redirect with
    | true => simp [hor, Action.is_client_manage]
    | false => simp [hor, hem, Action.is_client_manage]

/-- C19 as stated fails in its last sentence: a map request for an embedded
window whose attribute reply reports override_redirect makes no map and no
activation call. -/
theorem maprequest_embedded_override_counterexample :
    (xembed_getbywin sample_embedded_only.embedded 256).isSome = true
    ∧ (event_handle_maprequest (some { override_redirect := true }) (some sample_geom)
        (fun _ => true) sample_embedded_only
        { response_type := 20, parent := 1, window := 256 }).trace
      = [Action.get_window_attributes 256] := by
  decide

/-- C19, amended: if the embedded-window set and the client table are disjoint
before an event they are disjoint after the map-request, unmap-notify,
destroy-notify and reparent-notify handlers; a map request for a window of the
embedded-window set never calls `client_manage`, and maps and activates the
window when the attributes reply arrives and does not report
override_redirect. -/
theorem disjoint_tables_preserved (wa_r : Option xcb_get_window_attributes_reply_t)
    (geom_r : Option xcb_get_geometry_reply_t) (ewindow_isvisible : client_t → Bool)
    (wm_state : Nat) (s : State) (h : disjoint_tables s) :
    (∀ ev, disjoint_tables (event_handle_maprequest wa_r geom_r ewindow_isvisible s ev).state)
    ∧ (∀ ev, disjoint_tables (event_handle_unmapnotify wm_state s ev).state)
    ∧ (∀ ev, disjoint_tables (event_handle_destroynotify s ev).state)
    ∧ (∀ ev, disjoint_tables (event_handle_reparentnotify s ev).state)
    ∧ (∀ ev : xcb_map_request_event_t, (xembed_getbywin s.embedded ev.window).isSome = true →
        (event_handle_maprequest wa_r geom_r ewindow_isvisible s ev).trace.filter
          Action.is_client_manage = []
        ∧ (∀ wa, wa_r = some wa → wa.override_redirect = false →
            (event_handle_maprequest wa_r geom_r ewindow_isvisible s ev).trace
              = [Action.get_window_attributes ev.window, Action.map_window ev.window,
                 Action.xembed_window_activate ev.window])) := by
  refine ⟨?_, ?_, ?_, ?_, ?_⟩
  · intro ev
    unfold event_handle_maprequest
    cases wa_r with
    | none => exact h
    | some wa =>
      cases hor : wa.override_redirect with
      | true => simpa [hor] using h
      | false =>
        cases hem : xembed_getbywin s.embedded ev.window with
        | some em => simpa [hor, hem] using h
        | none =>
          cases hcl : client_getbywin s ev.window with
          | some c =>
            cases hv : ewindow_isvisible c with
            | false => simpa [hor, hem, hcl, hv] using h
            | true =>
              simp only [hor, hem, hv, Bool.false_eq_true, if_false, if_true,
                Option.isSome_none]
              intro w hw
              simp only [lua_pop, ewindow_set_minimized, luaA_object_push, lua_push] at hw ⊢
              rw [client_update_windows (fun d : client_t => { d with minimized := false })
                c.window (fun _ => rfl)] at hw
              exact h w hw
          | none =>
            cases geom_r with
            | none => simpa [hor, hem, hcl] using h
            | some geom =>
              simp only [hor, hem, Bool.false_eq_true, if_false, Option.isSome_none]
              intro w hw
              simp only [client_manage, List.map_append, List.map_cons, List.map_nil,
                List.mem_append, List.mem_singleton] at hw ⊢
              rcases hw with hw | hw
              · exact h w hw
              · rw [hw]
                exact xembed_getbywin_none s.embedded ev.window hem
  · intro ev
    unfold event_handle_unmapnotify
    cases hcl : client_getbywin s ev.window with
    | none => exact disjoint_tables_embedded_remove s ev.window h
    | some c =>
      simp only
      split
      · split
        · exact disjoint_tables_unmanage s c h
        · exact h
      · exact h
  · intro ev
    unfold event_handle_destroynotify
    cases hcl : client_getbywin s ev.window with
    | none => exact disjoint_tables_embedded_remove s ev.window h
    | some c => exact disjoint_tables_unmanage s c h
  · intro ev
    unfold event_handle_reparentnotify
    cases hcl : client_getbywin s ev.window with
    | none => exact h
    | some c => exact disjoint_tables_unmanage s c h
  · intro ev hem
    exact (maprequest_embedded_trace wa_r geom_r ewindow_isvisible s ev hem).2

/-- C19, instances: with client 256 and embedded windows 5, 7, 9, the tables stay
disjoint after a map request that manages window 512 and after the destruction
of window 7; a map request for the embedded window 7 maps and activates it. -/
theorem disjoint_tables_preserved_witness :
    disjoint_tables (event_handle_maprequest (some { override_redirect := false })
        (some sample_geom) (fun _ => true) sample_embedded
        { response_type := 20, parent := 1, window := 512 }).state
    ∧ disjoint_tables (event_handle_destroynotify sample_embedded
        { response_type := 17, event := 1, window := 7 }).state
    ∧ (event_handle_maprequest (some { override_redirect := false })
        (some sample_geom) (fun _ => true) sample_embedded
        { response_type := 20, parent := 1, window := 7 }).trace
      = [Action.get_window_attributes 7, Action.map_window 7,
         Action.xembed_window_activate 7] :=
  have h := disjoint_tables_preserved (some { override_redirect := false })
    (some sample_geom) (fun _ => true) 1 sample_embedded (by decide)
  ⟨h.1 { response_type := 20, parent := 1, window := 512 },
   h.2.2.1 { response_type := 17, event := 1, window := 7 },
   (h.2.2.2.2 { response_type := 20, parent := 1, window := 7 } (by decide)).2
      { override_redirect := false } rfl rfl⟩

/-- C20: for a map request on a window that is not override-redirect, not
embedded and already a managed client C, the handler returns 0, never calls
`client_manage`, makes no geometry query and leaves the window identifiers of
the client table as they were; it clears C's minimized flag and raises C if and
only if C is eligible to be visible, and leaves the state unchanged when C is
not eligible. -/
theorem maprequest_known_client (wa : xcb_get_window_attributes_reply_t)
    (geom_r : Option xcb_get_geometry_reply_t) (ewindow_isvisible : client_t → Bool)
    (s : State) (ev : xcb_map_request_event_t) (c : client_t)
    (hor : wa.override_redirect = false)
    (hem : xembed_getbywin s.embedded ev.window = none)
    (hc : client_getbywin s ev.window = some c) :
    (event_handle_maprequest (some wa) geom_r ewindow_isvisible s ev).ret = 0
    ∧ (event_handle_maprequest (some wa) geom_r ewindow_isvisible s ev).trace.filter
        Action.is_client_manage = []
    ∧ Action.get_geometry ev.window
        ∉ (event_handle_maprequest (some wa) geom_r ewindow_isvisible s ev).trace
    ∧ (event_handle_maprequest (some wa) geom_r ewindow_isvisible s ev).state.clients.map
          (fun d => d.window) = s.clients.map (fun d => d.window)
    ∧ ((Action.set_minimized c.window false
            ∈ (event_handle_maprequest (some wa) geom_r ewindow_isvisible s ev).trace
          ∧ Action.stack_window_raise c.window
            ∈ (event_handle_maprequest (some wa) geom_r ewindow_isvisible s ev).trace)
        ↔ ewindow_isvisible c = true)
    ∧ (ewindow_isvisible c = true →
        (event_handle_maprequest (some wa) geom_r ewindow_isvisible s ev).trace
          = [Action.get_window_attributes ev.window, Action.set_minimized c.window false,
             Action.stack_window_raise c.window]
        ∧ client_getbywin (event_handle_maprequest (some wa) geom_r ewindow_isvisible s ev).state
            ev.window = some { c with minimized := false }
        ∧ (event_handle_maprequest (some wa) geom_r ewindow_isvisible s ev).state
            = ewindow_set_minimized s c.window false)
    ∧ (ewindow_isvisible c = false →
        (event_handle_maprequest (some wa) geom_r ewindow_isvisible s ev).trace
          = [Action.get_window_attributes ev.window]
        ∧ (event_handle_maprequest (some wa) geom_r ewindow_isvisible s ev).state = s) := by
  have hw := client_getbywin_window s ev.window c hc
  cases hv : ewindow_isvisible c with
  | false =>
    have ho : event_handle_maprequest (some wa) geom_r ewindow_isvisible s ev
        = { ret := 0, state := s, trace := [Action.get_window_attributes ev.window] } := by
      simp [event_handle_maprequest, hor, hem, hc, hv]
    rw [ho]
    simp [Action.is_client_manage]
  | true =>
    have hst : lua_pop (ewindow_set_minimized (luaA_object_push s
        (LuaValue.window c.towindow_t)) c.window false) 1
        = ewindow_set_minimized s c.window false := by
      cases s
      simp [lua_pop, ewindow_set_minimized, luaA_object_push, lua_push]
    have ho : event_handle_maprequest (some wa) geom_r ewindow_isvisible s ev
        = { ret := 0, state := ewindow_set_minimized s c.window false,
            trace := [Action.get_window_attributes ev.window,
                      Action.set_minimized c.window false,
                      Action.stack_window_raise c.window] } := by
      simp [event_handle_maprequest, hor, hem, hc, hv, hst]
    rw [ho]
    have hfind : client_getbywin (ewindow_set_minimized s c.window false) ev.window
        = some { c with minimized := false } := by
      unfold client_getbywin at hc ⊢
      simp only [ewindow_set_minimized, hw]
      exact find_client_update (fun d : client_t => { d with minimized := false }) ev.window
        (fun _ => rfl) _ _ hc
    refine ⟨rfl, by simp [Action.is_client_manage], by simp, ?_, by simp, ?_, by simp⟩
    · simp only [ewindow_set_minimized]
      exact client_update_windows (fun d : client_t => { d with minimized := false })
        c.window (fun _ => rfl) s.clients
    · intro _
      exact ⟨rfl, hfind, rfl⟩

/-- C20, an instance: a map request for the minimized client 256, eligible to be
visible, clears its minimized flag and raises it without any geometry query. -/
theorem maprequest_known_client_witness :
    (event_handle_maprequest (some { override_redirect := false }) none (fun _ => true)
        sample_minimized { response_type := 20, parent := 1, window := 256 }).trace
      = [Action.get_window_attributes 256, Action.set_minimized 256 false,
         Action.stack_window_raise 256]
    ∧ client_getbywin (event_handle_maprequest (some { override_redirect := false }) none
        (fun _ => true) sample_minimized
        { response_type := 20, parent := 1, window := 256 }).state 256
      = some sample_client :=
  have h := (maprequest_known_client { override_redirect := false } none (fun _ => true)
    sample_minimized { response_type := 20, parent := 1, window := 256 }
    { sample_client with minimized := true } rfl (by decide) (by decide)).2.2.2.2.2.1 rfl
  ⟨h.1, h.2.1⟩

/-- C21: for a client message the startup-notification processor does not
consume, the handler sets a client's minimized flag if and only if the message
type is the window-state-change atom, the message window is a managed client,
the format is 32 and the first data word is the iconic state value; then the
flag written is that client's, and in every other case the state is left as it
was. -/
theorem clientmessage_minimize (atoms : atoms_t) (xembed_ret systray_ret ewmh_ret : Int)
    (s : State) (ev : xcb_client_message_event_t) :
    ((∃ w b, Action.set_minimized w b
          ∈ (event_handle_clientmessage atoms false xembed_ret systray_ret ewmh_ret s ev).trace) ↔
        (ev.type = atoms.WM_CHANGE_STATE ∧ (client_getbywin s ev.window).isSome = true
          ∧ ev.format = 32 ∧ ev.data32.getD 0 0 = XCB_WM_STATE_ICONIC))
    ∧ (∀ c, ev.type = atoms.WM_CHANGE_STATE → client_getbywin s ev.window = some c →
        ev.format = 32 → ev.data32.getD 0 0 = XCB_WM_STATE_ICONIC →
        (event_handle_clientmessage atoms false xembed_ret systray_ret ewmh_ret s ev).state
          = ewindow_set_minimized s c.window true
        ∧ Action.set_minimized c.window true
          ∈ (event_handle_clientmessage atoms false xembed_ret systray_ret ewmh_ret s ev).trace
        ∧ client_getbywin
            (event_handle_clientmessage atoms false xembed_ret systray_ret ewmh_ret s ev).state
            ev.window = some { c with minimized := true })
    ∧ (¬ (ev.type = atoms.WM_CHANGE_STATE ∧ (client_getbywin s ev.window).isSome = true
          ∧ ev.format = 32 ∧ ev.data32.getD 0 0 = XCB_WM_STATE_ICONIC) →
        (event_handle_clientmessage atoms false xembed_ret systray_ret ewmh_ret s ev).state
          = s) := by
  unfold event_handle_clientmessage
  simp only [Bool.false_eq_true, if_false]
  by_cases h1 : ev.type = atoms.WM_CHANGE_STATE
  · simp only [if_pos h1]
    cases hc : client_getbywin s ev.window with
    | none => simp [h1]
    | some c =>
      have hw := client_getbywin_window s ev.window c hc
      by_cases hf : ev.format = 32 ∧ ev.data32.getD 0 0 = XCB_WM_STATE_ICONIC
      · simp only [if_pos hf]
        have hst : lua_pop (ewindow_set_minimized (luaA_object_push s
            (LuaValue.window c.towindow_t)) c.window true) 1
            = ewindow_set_minimized s c.window true := by
          cases s
          simp [lua_pop, ewindow_set_minimized, luaA_object_push, lua_push]
        have hfind : client_getbywin (ewindow_set_minimized s c.window true) ev.window
            = some { c with minimized := true } := by
          unfold client_getbywin at hc ⊢
          simp only [ewindow_set_minimized, hw]
          exact find_client_update (fun d : client_t => { d with minimized := true })
            ev.window (fun _ => rfl) _ _ hc
        rw [hst]
        refine ⟨?_, ?_, ?_⟩
        · constructor
          · intro _
            exact ⟨h1, rfl, hf.1, hf.2⟩
          · intro _
            exact ⟨c.window, true, by simp⟩
        · intro c' _ hc' _ _
          cases hc'
          exact ⟨rfl, by simp, hfind⟩
        · intro hn
          exact absurd ⟨h1, rfl, hf.1, hf.2⟩ hn
      · simp only [if_neg hf]
        refine ⟨?_, ?_, ?_⟩
        · constructor
          · rintro ⟨w, b, hm⟩
            simp at hm
          · rintro ⟨_, _, h3, h4⟩
            exact absurd ⟨h3, h4⟩ hf
        · intro c' _ _ h3 h4
          exact absurd ⟨h3, h4⟩ hf
        · intro _
          trivial
  · simp only [if_neg h1]
    by_cases h2 : ev.type = atoms._XEMBED
    · simp [h1, if_pos h2]
    · simp only [if_neg h2]
      by_cases h3 : ev.type = atoms._NET_SYSTEM_TRAY_OPCODE
      · simp [h1, if_pos h3]
      · simp [h1, if_neg h3]

/-- C21, instances: an iconic state-change message of format 32 for client 256
sets its minimized flag; the same message with format 8 leaves the state as it
was. -/
theorem clientmessage_minimize_witness :
    client_getbywin (event_handle_clientmessage sample_atoms false 0 0 0 sample_state
        { response_type := 33, format := 32, window := 256, type := 300,
          data32 := [3, 0, 0, 0, 0] }).state 256
      = some { sample_client with minimized := true }
    ∧ (event_handle_clientmessage sample_atoms false 0 0 0 sample_state
        { response_type := 33, format := 8, window := 256, type := 300,
          data32 := [3, 0, 0, 0, 0] }).state = sample_state :=
  ⟨((clientmessage_minimize sample_atoms 0 0 0 sample_state
        { response_type := 33, format := 32, window := 256, type := 300,
          data32 := [3, 0, 0, 0, 0] }).2.1 sample_client rfl (by decide) rfl (by decide)).2.2,
   (clientmessage_minimize sample_atoms 0 0 0 sample_state
        { response_type := 33, format := 8, window := 256, type := 300,
          data32 := [3, 0, 0, 0, 0] }).2.2 (by decide)⟩

/-- C22: for a map request whose attribute reply reports override_redirect the
handler returns 0, leaves the state as it was and makes no call besides the
attributes query: no geometry query, no `client_manage`, no map, activation,
minimize or raise, whatever the embedded-window set and the client table
hold. -/
theorem maprequest_override_redirect (wa : xcb_get_window_attributes_reply_t)
    (geom_r : Option xcb_get_geometry_reply_t) (ewindow_isvisible : client_t → Bool)
    (s : State) (ev : xcb_map_request_event_t) (hor : wa.override_redirect = true) :
    (event_handle_maprequest (some wa) geom_r ewindow_isvisible s ev).ret = 0
    ∧ (event_handle_maprequest (some wa) geom_r ewindow_isvisible s ev).state = s
    ∧ (event_handle_maprequest (some wa) geom_r ewindow_isvisible s ev).trace
        = [Action.get_window_attributes ev.window]
    ∧ Action.get_geometry ev.window
        ∉ (event_handle_maprequest (some wa) geom_r ewindow_isvisible s ev).trace
    ∧ (event_handle_maprequest (some wa) geom_r ewindow_isvisible s ev).trace.filter
        Action.is_client_manage = []
    ∧ (event_handle_maprequest (some wa) geom_r ewindow_isvisible s ev).trace.filter
        Action.is_window_action = [] := by
  have ho : event_handle_maprequest (some wa) geom_r ewindow_isvisible s ev
      = { ret := 0, state := s, trace := [Action.get_window_attributes ev.window] } := by
    unfold event_handle_maprequest
    simp only [hor, if_true]
  rw [ho]
  refine ⟨rfl, rfl, rfl, by simp, by simp [Action.is_client_manage],
    by simp [Action.is_window_action]⟩

/-- C22, instances: an override-redirect map request for the embedded window 7
and one for the managed client 256 each make the attributes query only. -/
theorem maprequest_override_redirect_witness :
    (event_handle_maprequest (some { override_redirect := true }) (some sample_geom)
        (fun _ => true) sample_embedded { response_type := 20, parent := 1, window := 7 }).trace
      = [Action.get_window_attributes 7]
    ∧ (event_handle_maprequest (some { override_redirect := true }) (some sample_geom)
        (fun _ => true) sample_embedded
        { response_type := 20, parent := 1, window := 256 }).trace
      = [Action.get_window_attributes 256] :=
  ⟨(maprequest_override_redirect { override_redirect := true } (some sample_geom)
      (fun _ => true) sample_embedded { response_type := 20, parent := 1, window := 7 }
      rfl).2.2.1,
   (maprequest_override_redirect { override_redirect := true } (some sample_geom)
      (fun _ => true) sample_embedded { response_type := 20, parent := 1, window := 256 }
      rfl).2.2.1⟩

theorem event_hook_emit_other (press release rt nargs : Nat)
    (h1 : rt ≠ press) (h2 : rt ≠ release) :
    ∀ (n : Nat) (s : State) (t : List Action),
      event_hook_emit press release rt nargs n (s, t) = (lua_pop s n, t)
  | 0, s, t => by
    cases s
    simp [event_hook_emit, lua_pop]
  | n + 1, s, t => by
    rw [event_hook_emit]
    have hstep : event_hook_emit_step press release rt nargs (n + 1) (s, t)
        = (lua_pop s 1, t) := by
      unfold event_hook_emit_step
      rw [if_neg h1, if_neg h2]
    rw [hstep, event_hook_emit_other press release rt nargs h1 h2 n]
    cases s
    simp [lua_pop, Nat.add_comm]

theorem event_hook_callback_stack {α : Type} (m : α → Bool) (wrap : α → LuaValue)
    (press release rt : Nat) (arr : List α) (nargs : Nat) (s : State)
    (h : nargs ≤ s.stack.length) :
    (event_hook_callback m wrap press release rt arr nargs s).1 = lua_pop s nargs := by
  have hA : (s.stack.take nargs).length = nargs := by
    rw [List.length_take]; omega
  have hs : s.stack = s.stack.take nargs ++ s.stack.drop nargs := (List.take_append_drop _ _).symm
  by_cases h1 : rt = press
  · have hcb := event_hook_callback_eq m wrap press release rt "press" (Or.inl ⟨h1, rfl⟩) arr
      (s.stack.take nargs) (s.stack.drop nargs) s hs
    rw [hA] at hcb
    rw [hcb]
    rfl
  · by_cases h2 : rt = release
    · have hcb := event_hook_callback_eq m wrap press release rt "release"
        (Or.inr ⟨h1, h2, rfl⟩) arr (s.stack.take nargs) (s.stack.drop nargs) s hs
      rw [hA] at hcb
      rw [hcb]
      rfl
    · unfold event_hook_callback
      simp only [event_hook_scan_eq, event_hook_emit_other press release rt nargs h1 h2]
      cases s
      simp [lua_pop]

/-- C23: with the script-engine stack made explicit and at least `nargs` entries
on it at entry, `event_button_callback` and `event_key_callback` return, for
every bindings collection and every response type, with the stack equal to the
entry stack without its `nargs` top entries, so exactly `nargs` shorter and
holding none of the bindings pushed; hence `event_handle_button`, and
`event_handle_key` when no key grab is active, leave the stack as it was. -/
theorem callback_stack_discipline
    (call : LuaValue → List LuaValue → Except LuaValue LuaValue)
    (handlekpress : xcb_key_press_event_t → Option (LuaValue × LuaValue × LuaValue))
    (keyresolv_get_keysym : Nat → Nat → Nat) (s : State) :
    (∀ (ev : xcb_button_press_event_t) (arr : List button_t) (nargs : Nat),
        nargs ≤ s.stack.length →
        (event_button_callback ev arr nargs s).1.stack = s.stack.drop nargs
        ∧ (event_button_callback ev arr nargs s).1.stack.length + nargs = s.stack.length)
    ∧ (∀ (ev : xcb_key_press_event_t) (arr : List keyb_t) (nargs keysym : Nat),
        nargs ≤ s.stack.length →
        (event_key_callback ev arr nargs keysym s).1.stack = s.stack.drop nargs
        ∧ (event_key_callback ev arr nargs keysym s).1.stack.length + nargs = s.stack.length)
    ∧ (∀ ev : xcb_button_press_event_t, (event_handle_button call s ev).state.stack = s.stack)
    ∧ (∀ ev : xcb_key_press_event_t, s.keygrabber = none →
        (event_handle_key call handlekpress keyresolv_get_keysym s ev).state.stack
          = s.stack) := by
  refine ⟨?_, ?_, ?_, ?_⟩
  · intro ev arr nargs h
    have hcb := event_hook_callback_stack (event_button_match ev) LuaValue.button
      XCB_BUTTON_PRESS XCB_BUTTON_RELEASE ev.response_type arr nargs s h
    have hst : (event_button_callback ev arr nargs s).1.stack = s.stack.drop nargs := by
      unfold event_button_callback
      rw [hcb]
      rfl
    refine ⟨hst, ?_⟩
    rw [hst, List.length_drop]
    omega
  · intro ev arr nargs keysym h
    have hcb := event_hook_callback_stack (fun k => event_key_match ev k keysym) LuaValue.key
      XCB_KEY_PRESS XCB_KEY_RELEASE ev.response_type arr nargs s h
    have hst : (event_key_callback ev arr nargs keysym s).1.stack = s.stack.drop nargs := by
      unfold event_key_callback
      rw [hcb]
      rfl
    refine ⟨hst, ?_⟩
    rw [hst, List.length_drop]
    omega
  · intro ev
    cases hg : s.mousegrabber with
    | some g =>
      have hm := event_handle_mousegrabber_some call s ev.root_x ev.root_y
        (button_grab_mask ev.detail) g hg
      unfold event_handle_button
      rw [hm]
      unfold mousegrabber_result
      cases call (LuaValue.function g)
          [LuaValue.pointer_state ev.root_x ev.root_y (button_grab_mask ev.detail)] with
      | error e => rfl
      | ok v =>
        by_cases hv : v = LuaValue.boolean true
        · simp [hv]
        · simp [hv, luaA_mousegrabber_stop]
    | none =>
      have hmg : event_handle_mousegrabber call s ev.root_x ev.root_y
          (button_grab_mask ev.detail) = (s, [], false) := by
        unfold event_handle_mousegrabber
        rw [hg]
      unfold event_handle_button
      rw [hmg]
      simp only [Bool.false_eq_true, if_false]
      cases hw : window_getbywin s ev.event with
      | none => rfl
      | some window =>
        have hcb := event_hook_callback_stack (event_button_match ev) LuaValue.button
          XCB_BUTTON_PRESS XCB_BUTTON_RELEASE ev.response_type window.buttons 1
          (luaA_object_push s (LuaValue.window window))
          (by simp [luaA_object_push, lua_push])
        simp only [event_button_callback, hcb]
        simp [lua_pop, luaA_object_push, lua_push]
  · intro ev hg
    unfold event_handle_key
    rw [hg]
    simp only
    cases hw : window_getbywin s ev.event with
    | none => rfl
    | some window =>
      have hcb := event_hook_callback_stack
        (fun k => event_key_match ev k (keyresolv_get_keysym ev.detail 0)) LuaValue.key
        XCB_KEY_PRESS XCB_KEY_RELEASE ev.response_type window.keys 1
        (luaA_object_push s (LuaValue.window window))
        (by simp [luaA_object_push, lua_push])
      simp only [event_key_callback, hcb]
      simp [lua_pop, luaA_object_push, lua_push]

/-- C23, instances: with three values on the stack, the button callback called
with two arguments for an event that is neither press nor release, on a
collection with two matching bindings, leaves the bottom value; the key
handler without a grab leaves the three values. -/
theorem callback_stack_discipline_witness :
    (event_button_callback
        { response_type := 132, detail := 1, event := 256, root_x := 0, root_y := 0, state := 0 }
        [sample_b1, sample_b3, sample_b2] 2 sample_stacked).1.stack = [LuaValue.number 3]
    ∧ (event_handle_key (fun _ _ => Except.ok LuaValue.nil) (fun _ => none) (fun _ _ => 97)
        sample_stacked { response_type := 2, detail := 38, event := 256, state := 64 }).state.stack
      = [LuaValue.number 1, LuaValue.number 2, LuaValue.number 3] :=
  have h := callback_stack_discipline (fun _ _ => Except.ok LuaValue.nil) (fun _ => none)
    (fun _ _ => 97) sample_stacked
  ⟨(h.1 { response_type := 132, detail := 1, event := 256, root_x := 0, root_y := 0,
          state := 0 } [sample_b1, sample_b3, sample_b2] 2 (by decide)).1,
   h.2.2.2 { response_type := 2, detail := 38, event := 256, state := 64 } rfl⟩

end Awesome
